import Mathlib

/-!
# Verification of the QA-dashboard ingestion / analysis pipeline

A shallow embedding, in Lean 4, of the call-ingestion, transcript
normalization, line-routing and LLM-analysis dispatch pipeline of the
qa-dashboard repository (`src/server/sync.ts`, `src/server/analysis.ts`,
the OpenPhone webhook router, and `src/drizzle/schema.ts`).

Modelling conventions:

* JavaScript strings are `String`; a value that may be `undefined`/`null`
  is `Option _`.  JavaScript truthiness of a string value (`undefined`,
  `null` and `""` are falsy) is `truthyS`; `a || b` on strings is
  `jsOrStr` / `jsStrDefault`.  For numeric fields defaulted with `|| 0`
  the JS semantics coincides with `Option.getD 0` because the only falsy
  number that can occur here is `0` itself.
* The MySQL tables (`calls`, `transcripts`, `analyses`) are Lean lists of
  row structures; `select ... where eq(col, id) limit 1` is `List.find?`,
  `update ... where eq(col, id)` maps over the list replacing matching
  rows, `insert` appends.  Wall-clock timestamps are `Nat` parameters;
  columns that no claim inspects (auto-increment ids, `createdAt`
  defaults, the JSON `metadata` blobs except the fields written by the
  code paths under study) are either omitted or reduced to the fields the
  source actually writes, as noted on each structure.
* Network calls (OpenPhone fetches, the LLM) are oracle parameters of
  type `Except String _`: `.error e` is a thrown exception with message
  `e`.  `try/catch` is pattern matching on the oracle.
* Asynchronous code is sequentialized: each handler is a function from
  the state before it runs to the state after, which matches the source's
  strictly sequential per-call processing.
-/

namespace QADash

/-- JavaScript truthiness of a possibly-absent string: `undefined`, `null`
and `""` are falsy. -/
def truthyS : Option String → Bool
  | none => false
  | some s => s ≠ ""

/-- JavaScript `a || b` for two possibly-absent strings. -/
def jsOrStr (a b : Option String) : Option String :=
  if truthyS a then a else b

/-- JavaScript `a || d` for a possibly-absent string and a present default. -/
def jsStrDefault (a : Option String) (d : String) : String :=
  match a with
  | some s => if s = "" then d else s
  | none => d

/-- JavaScript `s || null`: an empty string collapses to `null`. -/
def jsOrNull (a : Option String) : Option String :=
  if truthyS a then a else none

/-- `listIsPre pat l` : does `l` start with `pat`? -/
def listIsPre (pat l : List Char) : Bool :=
  match pat, l with
  | [], _ => true
  | _ :: _, [] => false
  | a :: ps, b :: ls => a == b && listIsPre ps ls

/-- `listIncl pat l` : does `pat` occur contiguously inside `l`? -/
def listIncl (pat : List Char) : List Char → Bool
  | [] => listIsPre pat []
  | b :: t => listIsPre pat (b :: t) || listIncl pat (b :: t |>.tail)

/-- JavaScript `s.includes(pat)` (case-sensitive substring test). -/
def strIncludes (s pat : String) : Bool :=
  listIncl pat.data s.data

/-- JavaScript `s.trim()`, written with structural recursion over the
character list so that it evaluates inside the kernel (the library
`String.trim` is extensionally the same on the inputs occurring here). -/
def strTrim (s : String) : String :=
  ⟨((s.data.dropWhile Char.isWhitespace).reverse.dropWhile
      Char.isWhitespace).reverse⟩

/-- JavaScript `s.toLowerCase()` over the character list. -/
def strToLower (s : String) : String :=
  ⟨s.data.map Char.toLower⟩

/-! ## Raw dialogue items and canonical segments

`OpenPhoneTranscript.dialogue` items carry `content`, `start`, `end`,
`identifier`, `userId` (`src/server/openphone.ts`).  At runtime any field
may be absent, which is exactly what the defensive code in both ingest
paths guards against, so every field is optional here.  The source field
`end` is spelled `endTime` (`end` is a Lean keyword). -/

structure DialogueItem where
  content : Option String
  identifier : Option String
  userId : Option String
  start : Option Nat
  endTime : Option Nat
deriving DecidableEq, Repr

/-- A canonical stored segment, the element shape of
`transcripts.jsonPayload.segments`.  Old rows may lack any field, so all
are optional; the two writers in the current source always fill
`speaker`/`text`. -/
structure Seg where
  start : Option Nat
  endTime : Option Nat
  speaker : Option String
  text : Option String
deriving DecidableEq, Repr

/-- `segment.userId || segment.identifier || 'Unknown'` — the speaker
resolution shared by the poll normalizer (`sync.ts`) and the webhook
normalizer. -/
def speakerOf (d : DialogueItem) : String :=
  jsStrDefault d.userId (jsStrDefault d.identifier "Unknown")

/-- `segment.content || ''`. -/
def textOf (d : DialogueItem) : String :=
  d.content.getD ""

/-- One `"speaker: text"` line of the derived full text. -/
def dialogueLine (d : DialogueItem) : String :=
  speakerOf d ++ ": " ++ textOf d

/-! ## Poll-path normalizer (`fetchTranscriptForCall`, `sync.ts:409-478`;
an identical copy lives in the webhook router file).  It maps **every**
dialogue item, with no validity filtering. -/

/-- Full text built by the poll path: every item rendered, newline-joined. -/
def pollFullText (ds : List DialogueItem) : String :=
  String.intercalate "\n" (ds.map dialogueLine)

/-- Segments built by the poll path: `start`/`end` copied as-is (possibly
absent), speaker and text defaulted. -/
def pollSegments (ds : List DialogueItem) : List Seg :=
  ds.map fun d => ⟨d.start, d.endTime, some (speakerOf d), some (textOf d)⟩

/-! ## Webhook-path normalizer (webhook router, transcript-save step).
It first filters items to those with non-blank `content` and a non-null
speaker field, then renders only the valid ones, defaulting `start`/`end`
to `0`. -/

/-- The webhook's validity test for one dialogue item: non-null `content`
whose trim is non-empty, and `userId` or `identifier` non-null (note: the
speaker test is a null-check only, an empty string passes it). -/
def validDialogueItem (d : DialogueItem) : Bool :=
  (match d.content with
   | some c => strTrim c ≠ ""
   | none => false)
  && (d.userId.isSome || d.identifier.isSome)

/-- `validDialogue` : the webhook's filtered item list. -/
def webhookValidDialogue (ds : List DialogueItem) : List DialogueItem :=
  ds.filter validDialogueItem

/-- Full text built by the webhook path (valid items only). -/
def webhookFullText (ds : List DialogueItem) : String :=
  String.intercalate "\n" ((webhookValidDialogue ds).map dialogueLine)

/-- Segments built by the webhook path: valid items only, `start`/`end`
defaulted to `0` (`d.start || 0`; for numbers `|| 0` agrees with
`Option.getD 0`). -/
def webhookSegments (ds : List DialogueItem) : List Seg :=
  (webhookValidDialogue ds).map fun d =>
    ⟨some (d.start.getD 0), some (d.endTime.getD 0),
     some (speakerOf d), some (textOf d)⟩

/-! ## The dispatcher's content-quality classifier
(`analyzeCall`, `analysis.ts:78-125`).  Two flags are computed:
`hasContent` and `isBroken`; the placeholder path is taken when
`!hasContent || isBroken`. -/

/-- The full-text phase of the classifier (`analysis.ts:83-99`): returns
`(hasContent, isBroken)` judged from the text alone. -/
def ftCheck (text : String) : Bool × Bool :=
  if strTrim text ≠ "" then
    if strIncludes text "undefined: undefined" then (false, true)
    else if (strTrim text).length > 10
        && !strIncludes (strToLower (strTrim text)) "no transcript"
        && !strIncludes (strToLower (strTrim text)) "transcript unavailable" then
      (true, false)
    else (false, false)
  else (false, false)

/-- The segment validity test of the classifier (`analysis.ts:106-109`):
non-empty trimmed text and a truthy speaker other than the literal string
`"undefined"`. -/
def validSeg (s : Seg) : Bool :=
  (match s.text with
   | some t => strTrim t ≠ ""
   | none => false)
  && (match s.speaker with
      | some sp => sp ≠ "" && sp ≠ "undefined"
      | none => false)

/-- The broken-segment test of the classifier (`analysis.ts:115-118`):
`start` and `end` both present but text falsy, speaker falsy, or speaker
the literal `"undefined"`. -/
def brokenSeg (s : Seg) : Bool :=
  s.start.isSome && s.endTime.isSome
    && (!(match s.text with | some t => t ≠ "" | none => false)
        || !(match s.speaker with | some sp => sp ≠ "" | none => false)
        || s.speaker == some "undefined")

/-- The full classifier: full-text phase first; if it decided nothing and
a stored segments array is available, valid segments grant content,
otherwise broken segments flag corruption.  Returns
`(hasContent, isBroken)`. -/
def classify (text : String) (segs : Option (List Seg)) : Bool × Bool :=
  let p := ftCheck text
  if !p.1 && !p.2 then
    match segs with
    | some l =>
        if l.filter validSeg ≠ [] then (true, p.2)
        else if l.filter brokenSeg ≠ [] then (p.1, true)
        else p
    | none => p
  else p

/-! ## Environment and data model -/

/-- The two configured line ids
(`OPENPHONE_MAIN_PHONE_NUMBER_ID` / `OPENPHONE_OUTBOUND_PHONE_NUMBER_ID`
environment variables, absent when unset). -/
structure Env where
  mainId : Option String
  outboundId : Option String
deriving DecidableEq, Repr

/-- `process.env.OPENPHONE_MAIN_PHONE_NUMBER_ID || "PNVbbBqeqM"` — the
default applied in `sync.ts` and in `saveAnalysisToDatabase`. -/
def Env.mainDflt (e : Env) : String := jsStrDefault e.mainId "PNVbbBqeqM"

/-- `process.env.OPENPHONE_OUTBOUND_PHONE_NUMBER_ID || "PNBANAZERt"`. -/
def Env.outboundDflt (e : Env) : String := jsStrDefault e.outboundId "PNBANAZERt"

/-- A call as returned by the OpenPhone list API (`OpenPhoneCall`,
`src/server/openphone.ts`).  `participants` is reduced to the list of
`phoneNumber` strings, the only field the code reads.  Fields that can be
missing at runtime are optional. -/
structure OpenPhoneCall where
  id : String
  phoneNumberId : String
  userId : Option String
  direction : String
  status : String
  participants : List String
  duration : Option Nat
  createdAt : Nat
  completedAt : Option Nat
  answeredAt : Option Nat
  callFrom : Option String
  callTo : Option String
deriving DecidableEq, Repr

/-- The metadata blob stored on a `calls` row by the webhook path (the
fields it writes that the pipeline later distinguishes). -/
structure WebhookCallMeta where
  phoneLine : String
  shouldAnalyze : Bool
  filterReason : String
  eventType : Option String
  hasTranscript : Bool
deriving DecidableEq, Repr

/-- Provenance/metadata column of a `calls` row: the poll path stores the
raw `OpenPhoneCall`, the webhook path its own blob. -/
inductive CallMeta where
  | poll (c : OpenPhoneCall)
  | webhook (m : WebhookCallMeta)
deriving DecidableEq, Repr

/-- A `calls` row (`src/drizzle/schema.ts`).  `direction`/`status` are
optional because the webhook path can write them unset; surrogate id and
non-written defaults omitted. -/
structure CallRow where
  callId : String
  direction : Option String
  fromNumber : String
  toNumber : String
  duration : Nat
  status : Option String
  createdAt : Nat
  answeredAt : Option Nat
  completedAt : Option Nat
  phoneNumberId : Option String
  userId : Option String
  metadata : Option CallMeta
deriving DecidableEq, Repr

/-- A `transcripts` row.  `segments` is `jsonPayload.segments` (absent
when the stored payload carries no segments array). -/
structure TranscriptRow where
  callId : String
  fullText : String
  segments : Option (List Seg)
  duration : Option Nat
  status : Option String
deriving DecidableEq, Repr

/-- The metadata written on an `analyses` row by the code paths modelled
here (`noContentMetadata` for the placeholder path, the phone-line tag for
the scored path; the direction-specific sub-result blobs are opaque to
every claim and omitted). -/
structure AnalysisMeta where
  phoneLine : Option String
  emptyTranscript : Option Bool
  brokenTranscript : Option Bool
  reason : Option String
deriving DecidableEq, Repr

/-- An `analyses` row, reduced to the columns the claims inspect
(`score`, `complianceCheck`, `summary`, `sentiment`, `complianceNotes`,
outbound `outcome`/`breakdownPoint`, metadata). -/
structure AnalysisRow where
  callId : String
  score : Int
  summary : String
  sentiment : Option String
  complianceCheck : String
  complianceNotes : Option String
  outcome : Option String
  breakdownPoint : Option String
  metadata : AnalysisMeta
deriving DecidableEq, Repr

/-- The database: the three tables the pipeline owns. -/
structure DB where
  calls : List CallRow
  transcripts : List TranscriptRow
  analyses : List AnalysisRow
deriving DecidableEq, Repr

/-- `select().from(calls).where(eq(calls.callId, id)).limit(1)`. -/
def DB.findCall (db : DB) (id : String) : Option CallRow :=
  db.calls.find? (·.callId == id)

/-- `select().from(transcripts).where(eq(transcripts.callId, id)).limit(1)`. -/
def DB.findTranscript (db : DB) (id : String) : Option TranscriptRow :=
  db.transcripts.find? (·.callId == id)

/-- `select().from(analyses).where(eq(analyses.callId, id)).limit(1)`. -/
def DB.findAnalysis (db : DB) (id : String) : Option AnalysisRow :=
  db.analyses.find? (·.callId == id)

/-! ## Store upserts -/

/-- The `InsertCall` record built by the poll path's `upsertCall`
(`sync.ts:296-312`): from/to from explicit fields else participants,
duration defaulted, raw call stored as metadata. -/
def callRowOfOP (c : OpenPhoneCall) : CallRow where
  callId := c.id
  direction := some c.direction
  fromNumber := jsStrDefault c.callFrom (jsStrDefault (c.participants.get? 0) "")
  toNumber := jsStrDefault c.callTo (jsStrDefault (c.participants.get? 1) "")
  duration := c.duration.getD 0
  status := some c.status
  createdAt := c.createdAt
  answeredAt := c.answeredAt
  completedAt := c.completedAt
  phoneNumberId := some c.phoneNumberId
  userId := c.userId
  metadata := some (.poll c)

/-- `upsertCall` (`sync.ts:289-333`): look up by `callId`; present →
update the row in place with the full new record, return `true`
("updated"); absent → insert, return `false` ("inserted"). -/
def upsertCall (c : OpenPhoneCall) (db : DB) : Bool × DB :=
  let row := callRowOfOP c
  if (db.calls.find? (·.callId == c.id)).isSome then
    (true, { db with calls := db.calls.map fun r => if r.callId == c.id then row else r })
  else
    (false, { db with calls := db.calls ++ [row] })

/-- The shared transcript upsert (select / update-all-fields / insert),
as inlined in `fetchTranscriptForCall` and in the webhook handler. -/
def upsertTranscript (row : TranscriptRow) (db : DB) : DB :=
  if (db.transcripts.find? (·.callId == row.callId)).isSome then
    { db with transcripts := db.transcripts.map fun r => if r.callId == row.callId then row else r }
  else
    { db with transcripts := db.transcripts ++ [row] }

/-- The analysis upsert at the end of `saveAnalysisToDatabase`
(`analysis.ts:612-637`). -/
def upsertAnalysis (row : AnalysisRow) (db : DB) : DB :=
  if (db.analyses.find? (·.callId == row.callId)).isSome then
    { db with analyses := db.analyses.map fun r => if r.callId == row.callId then row else r }
  else
    { db with analyses := db.analyses ++ [row] }

/-! ## The scoring-function (LLM) interface

`invokeLLM` is an opaque oracle.  The request schema demands an integer
`score`, so JSON numbers are `Int` here; a structurally wrong response is
modelled by `JScore.str`/`JScore.missing` (e.g. the string `"abc"`).  A
thrown provider error, a missing `content`, or a JSON parse failure are
all the oracle's `.error` case. -/

/-- The `score` field of a parsed LLM response: a number, some other
JSON value rendered as a string, or absent. -/
inductive JScore where
  | num (n : Int)
  | str (s : String)
  | missing
deriving DecidableEq, Repr

/-- One value of the inbound `complianceChecks` object.  The placeholder
path stores the literal string `"NA"` in these slots; as an object value
that is truthy with `compliant`/`notes` undefined, i.e. `⟨none, none⟩`. -/
structure CCheckVal where
  compliant : Option Bool
  notes : Option String
deriving DecidableEq, Repr

/-- A parsed LLM analysis result, reduced to the fields
`saveAnalysisToDatabase` branches on (the remaining rubric blobs are
copied opaquely into metadata and inspected by no claim). -/
structure LLMAnalysis where
  score : JScore
  summary : Option String
  sentiment : Option String
  complianceChecks : Option (List (String × CCheckVal))
  keyActionItems : Option (List String)
  outcome : Option String
  breakdownPoint : Option String
  coachingNotes : Option String
deriving DecidableEq, Repr

/-! ## `saveAnalysisToDatabase` (`analysis.ts:463-638`) -/

/-- The inbound compliance-notes assembly (`analysis.ts:493-499`). -/
def inboundComplianceNotes (checks : List (String × CCheckVal)) : String :=
  let get1 := fun (k : String) => (checks.find? (·.1 == k)).map (·.2)
  let items : List (String × String) :=
    [("greeting", "Greeting"), ("needsAssessment", "Needs Assessment"),
     ("problemSolving", "Problem Solving"), ("scheduling", "Scheduling"),
     ("empathy", "Empathy")]
  String.intercalate " | " (items.filterMap fun kv =>
    (get1 kv.1).map fun v => kv.2 ++ ": " ++ jsStrDefault v.notes "N/A")

/-- The overall compliance verdict and notes (`analysis.ts:474-511`):
inbound counts compliant sub-checks (`Pass` if all, `Fail` if fewer than
half — JS `compliantCount < totalChecks / 2` with float division, i.e.
`2 * compliantCount < totalChecks`), any other direction (outgoing or
undefined) derives it from `outcome`/`breakdownPoint`. -/
def complianceVerdict (a : LLMAnalysis) (callDirection : Option String) :
    String × String :=
  if callDirection == some "incoming" then
    let checks := a.complianceChecks.getD []
    let compliantCount := checks.countP fun kv => kv.2.compliant == some true
    let totalChecks := checks.length
    let cc := if compliantCount = totalChecks then "Pass"
      else if 2 * compliantCount < totalChecks then "Fail" else "Review"
    (cc, inboundComplianceNotes checks)
  else
    let cc := if a.outcome == some "Appointment" || a.outcome == some "Callback Scheduled" then "Pass"
      else if a.outcome == some "Not Interested" || a.breakdownPoint == some "Introduction" then "Fail"
      else "Review"
    (cc, a.coachingNotes.getD "")

/-- The `analyses` row `saveAnalysisToDatabase` builds
(`analysis.ts:513-602`): verdict from `complianceVerdict`, score
defaulted to `0` when non-numeric (unreachable after validation). -/
def analysisRowFor (callId : String) (a : LLMAnalysis)
    (phoneNumberId : Option String) (callDirection : Option String)
    (env : Env) : AnalysisRow :=
  let v := complianceVerdict a callDirection
  let phoneLine : Option String :=
    match phoneNumberId with
    | some p =>
        if p ≠ "" then
          if p = env.mainDflt then some "main"
          else if p = env.outboundDflt then some "outbound"
          else none
        else none
    | none => none
  { callId := callId
    score := match a.score with | .num n => n | _ => 0
    summary := jsStrDefault a.summary "No summary available"
    sentiment := jsOrNull a.sentiment
    complianceCheck := v.1
    complianceNotes := jsOrNull (some v.2)
    outcome := if callDirection == some "outgoing" then jsOrNull a.outcome else none
    breakdownPoint := if callDirection == some "outgoing" then jsOrNull a.breakdownPoint else none
    metadata := { phoneLine := phoneLine, emptyTranscript := none,
                  brokenTranscript := none, reason := none } }

/-- `saveAnalysisToDatabase`: build the row and upsert it. -/
def saveAnalysisToDatabase (callId : String) (a : LLMAnalysis)
    (phoneNumberId : Option String) (callDirection : Option String)
    (env : Env) (db : DB) : DB :=
  upsertAnalysis (analysisRowFor callId a phoneNumberId callDirection env) db

/-! ## `analyzeCall` (`analysis.ts:31-458`)

Returned alongside the result and the new database state is a `Bool`
recording whether `invokeLLM` was reached. -/

/-- `AnalyzeCallOptions` (`analysis.ts:14-19`). -/
structure AnalyzeCallOptions where
  callId : String
  transcriptText : Option String
  callDirection : Option String
  phoneNumberId : Option String
deriving DecidableEq, Repr

/-- `AnalyzeCallResult`, with `score` standing for `analysis?.score`. -/
structure AnalyzeCallResult where
  success : Bool
  callId : String
  score : Option Int
  error : Option String
deriving DecidableEq, Repr

/-- The reason string of the no-content path (`analysis.ts:128-130`). -/
def noContentReason (isBroken : Bool) : String :=
  if isBroken then
    "Transcript contains corrupted data (undefined: undefined) - cannot analyze"
  else "No dialogue content in transcript"

/-- The summary of the no-content path (`analysis.ts:144-146`). -/
def noContentSummary (isBroken : Bool) : String :=
  if isBroken then
    "Transcript data is corrupted and cannot be analyzed. Please re-sync this transcript."
  else
    "Transcript contains no dialogue. This may be a Sona AI call, voicemail, or silent call."

/-- The minimal analysis object the placeholder path feeds to
`saveAnalysisToDatabase` (`analysis.ts:149-161`). -/
def placeholderAnalysis (isBroken : Bool) : LLMAnalysis :=
  { score := .num 0
    summary := some (noContentSummary isBroken)
    sentiment := some "Neutral"
    complianceChecks := some
      [("greeting", ⟨none, none⟩), ("verification", ⟨none, none⟩),
       ("recordingConsent", ⟨none, none⟩), ("professionalism", ⟨none, none⟩)]
    keyActionItems := some []
    outcome := none
    breakdownPoint := none
    coachingNotes := none }

/-- `noContentMetadata` (`analysis.ts:136-142`): phone line matched
against the raw environment values (no defaults on this path). -/
def noContentMetadata (phoneNumberId : Option String) (env : Env)
    (isBroken : Bool) : AnalysisMeta :=
  { phoneLine := some
      (if phoneNumberId == env.mainId then "main"
       else if phoneNumberId == env.outboundId then "outbound" else "unknown")
    emptyTranscript := some (!isBroken)
    brokenTranscript := some isBroken
    reason := some (noContentReason isBroken) }

/-- The transcript-text resolution of `analyzeCall`
(`analysis.ts:55-76`): the caller-supplied text when truthy, else the
stored row's `fullText` together with its segments (`none` overall when
neither exists). -/
def resolveTranscript (opts : AnalyzeCallOptions) (db : DB) :
    Option (String × Option (List Seg)) :=
  if truthyS opts.transcriptText then some (opts.transcriptText.getD "", none)
  else (db.findTranscript opts.callId).map fun t => (t.fullText, t.segments)

/-- `analyzeCall`: look up the call, resolve the transcript text (caller
supplied, else the stored row), classify content quality; empty/broken
short-circuits to a persisted placeholder, otherwise the LLM oracle is
consulted, its score validated, and the result saved.  All exceptions of
the source are `catch`-ed into a `success := false` result, so the
embedding is a total function; the final `Bool` is `true` iff `invokeLLM`
was reached. -/
def analyzeCall (opts : AnalyzeCallOptions) (env : Env)
    (llm : Except String LLMAnalysis) (db : DB) :
    AnalyzeCallResult × DB × Bool :=
  match db.findCall opts.callId with
  | none =>
      ({ success := false, callId := opts.callId, score := none,
         error := some "Call not found" }, db, false)
  | some call =>
    match resolveTranscript opts db with
    | none =>
        ({ success := false, callId := opts.callId, score := none,
           error := some "Transcript not found for this call" }, db, false)
    | some (text, segs) =>
      let p := classify text segs
      if !p.1 || p.2 then
        let db1 := saveAnalysisToDatabase opts.callId (placeholderAnalysis p.2)
          opts.phoneNumberId none env db
        let meta := noContentMetadata opts.phoneNumberId env p.2
        let notes := "Unable to analyze - " ++ strToLower (noContentReason p.2) ++ "."
        let db2 := { db1 with analyses := db1.analyses.map fun r =>
          if r.callId == opts.callId then
            { r with score := 0, sentiment := none, complianceCheck := "Review",
                     complianceNotes := some notes, metadata := meta }
          else r }
        ({ success := true, callId := opts.callId, score := some 0,
           error := none }, db2, false)
      else
        match llm with
        | .error e =>
            ({ success := false, callId := opts.callId, score := none,
               error := some e }, db, true)
        | .ok a =>
          match a.score with
          | .num n =>
            if 0 ≤ n ∧ n ≤ 100 then
              let dir := jsOrStr opts.callDirection call.direction
              let db1 := saveAnalysisToDatabase opts.callId a
                opts.phoneNumberId dir env db
              ({ success := true, callId := opts.callId, score := some n,
                 error := none }, db1, true)
            else
              ({ success := false, callId := opts.callId, score := none,
                 error := some "Invalid score in analysis result" }, db, true)
          | _ =>
              ({ success := false, callId := opts.callId, score := none,
                 error := some "Invalid score in analysis result" }, db, true)

/-! ## `batchAnalyzeCalls` (`analysis.ts:643-670`) -/

/-- The aggregate returned by `batchAnalyzeCalls`. -/
structure BatchResult where
  total : Nat
  successful : Nat
  failed : Nat
  results : List AnalyzeCallResult
deriving DecidableEq, Repr

/-- The sequential loop of `batchAnalyzeCalls`, threading the database;
returns `(results, successful, failed, db)`.  The LLM oracle is a
function of the call id so each iteration may see a different response. -/
def batchLoop (env : Env) (llm : String → Except String LLMAnalysis) :
    List String → DB → List AnalyzeCallResult × Nat × Nat × DB
  | [], db => ([], 0, 0, db)
  | id :: rest, db =>
    let r := analyzeCall ⟨id, none, none, none⟩ env (llm id) db
    let t := batchLoop env llm rest r.2.1
    (r.1 :: t.1,
     (if r.1.success then t.2.1 + 1 else t.2.1),
     (if r.1.success then t.2.2.1 else t.2.2.1 + 1),
     t.2.2.2)

/-- `batchAnalyzeCalls`. -/
def batchAnalyzeCalls (ids : List String) (env : Env)
    (llm : String → Except String LLMAnalysis) (db : DB) :
    BatchResult × DB :=
  let t := batchLoop env llm ids db
  ({ total := ids.length, successful := t.2.1, failed := t.2.2.1,
     results := t.1 }, t.2.2.2)

/-! ## Poll-path transcript fetch (`fetchTranscriptForCall`,
`sync.ts:409-478`, duplicated verbatim in the webhook router file) -/

/-- The payload of the transcript endpoint (`OpenPhoneTranscript`),
fields optional as at runtime. -/
structure OPTranscript where
  callId : String
  duration : Option Nat
  status : Option String
  dialogue : Option (List DialogueItem)
deriving DecidableEq, Repr

/-- The transcript row the poll path persists for a payload. -/
def pollTranscriptRecord (t : OPTranscript) : TranscriptRow :=
  { callId := t.callId
    fullText := pollFullText (t.dialogue.getD [])
    segments := some (pollSegments (t.dialogue.getD []))
    duration := t.duration
    status := t.status }

/-- `fetchTranscriptForCall`: the oracle is the transcript endpoint's
response (`.ok none` = a falsy `response.data`).  Missing/empty dialogue
returns `false` without storing; an error whose message contains `"404"`
is swallowed as `false`; other errors propagate.  Returns the outcome and
the database afterwards. -/
def fetchTranscriptForCall (resp : Except String (Option OPTranscript))
    (db : DB) : Except String Bool × DB :=
  match resp with
  | .error e => (if strIncludes e "404" then .ok false else .error e, db)
  | .ok none => (.ok false, db)
  | .ok (some t) =>
    match t.dialogue with
    | none => (.ok false, db)
    | some [] => (.ok false, db)
    | some (_ :: _) => (.ok true, upsertTranscript (pollTranscriptRecord t) db)

/-! ## Line-routing policy -/

/-- `filterCallsForAnalysis` (`sync.ts:367-398`): environment ids with
the literal defaults; main line keeps incoming calls over 30 seconds,
outbound line keeps outgoing calls, anything else is dropped. -/
def filterCallsForAnalysis (cs : List OpenPhoneCall) (phoneNumberId : String)
    (env : Env) : List OpenPhoneCall :=
  let isMainLine := phoneNumberId == env.mainDflt
  let isOutboundLine := phoneNumberId == env.outboundDflt
  cs.filter fun c =>
    (isMainLine && c.direction == "incoming" && c.duration.getD 0 > 30)
    || (isOutboundLine && c.direction == "outgoing")

/-- The webhook handler's inline routing decision
(part_002:493-514 of the webhook router): raw environment values, no
defaults, `===` on possibly-undefined strings. -/
structure RoutingDecision where
  shouldAnalyze : Bool
  phoneLine : String
  filterReason : String
deriving DecidableEq, Repr

/-- Render a possibly-undefined string into a template literal the way
JavaScript does. -/
def tmpl (o : Option String) : String := o.getD "undefined"

/-- `webhookRouting phoneNumberId direction duration env`. -/
def webhookRouting (phoneNumberId : Option String) (direction : Option String)
    (duration : Nat) (env : Env) : RoutingDecision :=
  if phoneNumberId == env.mainId then
    let sa := direction == some "incoming" && duration > 30
    { shouldAnalyze := sa, phoneLine := "main"
      filterReason :=
        if !sa then
          "Main line filter: " ++ tmpl direction ++ " call, " ++
            toString duration ++ "s (need incoming >30s)"
        else "Qualifies: Incoming >30s" }
  else if phoneNumberId == env.outboundId then
    let sa := direction == some "outgoing"
    { shouldAnalyze := sa, phoneLine := "outbound"
      filterReason :=
        if !sa then
          "Outbound line filter: " ++ tmpl direction ++ " call (need outgoing)"
        else "Qualifies: Outgoing call" }
  else
    { shouldAnalyze := false, phoneLine := "unknown"
      filterReason := "Unknown phone number: " ++ tmpl phoneNumberId }

/-! ## The poll pipeline (`syncCalls`, `sync.ts:33-283`)

The paging loop is driven by the ordered list of responses the calls
endpoint returns: `.ok (calls, token?)` is one page, `.error` a thrown
fetch.  The loop stops at the first absent `nextPageToken` or first
error, exactly as the `do/while`.  Per-call transcript and LLM responses
are oracles indexed by call id.  Wall-clock `duration` of the run is not
modelled. -/

/-- `SyncOptions` (participants/userId only shape the outbound request
and are dropped; `autoAnalyze` is tri-state as in JS: absent means on). -/
structure SyncOptions where
  phoneNumberId : String
  daysToSync : Nat
  autoAnalyze : Option Bool
deriving DecidableEq, Repr

/-- `SyncResult` minus the wall-clock `duration` field. -/
structure SyncResult where
  success : Bool
  callsSynced : Nat
  transcriptsSynced : Nat
  analysesTriggered : Nat
  errors : List String
deriving DecidableEq, Repr

/-- The extra error strings pushed after a page-fetch failure
(`sync.ts:114-131`). -/
def fetchErrMsgs (opts : SyncOptions) (e : String) : List String :=
  ("Failed to fetch calls: " ++ e) ::
    (if strIncludes e "API key is invalid" then ["OpenPhone API key is invalid"]
     else if strIncludes e "Phone number ID not found" then
       ["Phone number ID \"" ++ opts.phoneNumberId ++ "\" not found in your OpenPhone account"]
     else [])

/-- The paging loop (`sync.ts:76-133`): accumulate pages until a missing
token or an error; returns `(allCalls, errors, success)`. -/
def fetchPhase (opts : SyncOptions) :
    List (Except String (List OpenPhoneCall × Option String)) →
    List OpenPhoneCall × List String × Bool
  | [] => ([], [], true)
  | .error e :: _ => ([], fetchErrMsgs opts e, false)
  | .ok (cs, none) :: _ => (cs, [], true)
  | .ok (cs, some _) :: rest =>
    let t := fetchPhase opts rest
    (cs ++ t.1, t.2.1, t.2.2)

/-- The "no calls found" notice (`sync.ts:136-139`). -/
def noCallsMsg (opts : SyncOptions) : String :=
  "No calls found in the last " ++ toString opts.daysToSync ++
    " days for this phone number"

/-- The call-save loop (`sync.ts:160-175`): upsert every completed call
in order (the upsert itself cannot throw in the model), counting each
into `callsSynced`. -/
def upsertPhase : List OpenPhoneCall → DB → Nat × DB
  | [], db => (0, db)
  | c :: rest, db =>
    let r := upsertCall c db
    let t := upsertPhase rest r.2
    (t.1 + 1, t.2)

/-- One transcript response counts as "found and saved" iff it is a
payload with a non-empty dialogue. -/
def transcriptFound (resp : Except String (Option OPTranscript)) : Bool :=
  match resp with
  | .ok (some t) => !(t.dialogue.getD []).isEmpty
  | _ => false

/-- The transcript loop (`sync.ts:188-203`): per call, fetch and save;
a thrown fetch is logged only — it neither aborts the loop nor records
an error string. -/
def transcriptPhase (tResp : String → Except String (Option OPTranscript)) :
    List OpenPhoneCall → DB → Nat × DB
  | [], db => (0, db)
  | c :: rest, db =>
    let r := fetchTranscriptForCall (tResp c.id) db
    let t := transcriptPhase tResp rest r.2
    ((match r.1 with | .ok true => t.1 + 1 | _ => t.1), t.2)

/-- The analysis loop (`sync.ts:221-244`): per qualifying call, dispatch
`analyzeCall`; a failed dispatch records
`"Analysis failed for call <id>: <error>"`.  Returns
`(analysesTriggered, errors, db)`. -/
def analysisPhase (opts : SyncOptions) (env : Env)
    (llm : String → Except String LLMAnalysis) :
    List OpenPhoneCall → DB → Nat × List String × DB
  | [], db => (0, [], db)
  | c :: rest, db =>
    let r := analyzeCall ⟨c.id, none, none, some opts.phoneNumberId⟩ env (llm c.id) db
    let t := analysisPhase opts env llm rest r.2.1
    if r.1.success then (t.1 + 1, t.2.1, t.2.2)
    else (t.1, ("Analysis failed for call " ++ c.id ++ ": " ++ tmpl r.1.error) :: t.2.1, t.2.2)

/-- `syncCalls`: page through calls, filter to completed, upsert, fetch
transcripts, auto-analyze qualifying calls; every per-item failure is
captured, and the embedding is total (the source's outer `catch` has no
remaining throw sites once the oracles model the network). -/
def syncCalls (opts : SyncOptions)
    (pages : List (Except String (List OpenPhoneCall × Option String)))
    (tResp : String → Except String (Option OPTranscript))
    (llm : String → Except String LLMAnalysis)
    (env : Env) (db : DB) : SyncResult × DB :=
  let f := fetchPhase opts pages
  let allCalls := f.1
  let errors0 := f.2.1 ++
    (if allCalls.length = 0 ∧ f.2.1 = [] then [noCallsMsg opts] else [])
  let completedCalls := allCalls.filter (·.status == "completed")
  let u := upsertPhase completedCalls db
  let tr := transcriptPhase tResp completedCalls u.2
  let shouldAutoAnalyze := !(opts.autoAnalyze == some false)
  let a :=
    if shouldAutoAnalyze then
      analysisPhase opts env llm
        (filterCallsForAnalysis completedCalls opts.phoneNumberId env) tr.2
    else (0, [], tr.2)
  ({ success := f.2.2, callsSynced := u.1, transcriptsSynced := tr.1,
     analysesTriggered := a.1, errors := errors0 ++ a.2.1 }, a.2.2)

/-! ## The webhook handler
(`openphoneWebhookRouter.post('/webhooks/openphone/calls')`)

The request body is untyped JSON; fields that the handler dereferences
are optional here.  `data` may be the call object itself or wrap it one
level deeper under `object`; `DataField.fields` is what reading fields
directly off `data` yields (`data?.dialogue`).  The health-tracking
insert touches only the out-of-scope `webhook_health` table inside its
own `try/catch` and is not modelled.  The handler returns the HTTP
acknowledgment, the database after the synchronous portion, and a
description of the deferred (post-response) work. -/

/-- The call-shaped payload the handler reads (`from`/`to` are spelled
`fromField`/`toField`; `transcriptDialogue` is `transcript?.dialogue`). -/
structure CallPayload where
  id : Option String
  callId : Option String
  phoneNumberId : Option String
  direction : Option String
  duration : Option Nat
  status : Option String
  createdAt : Option Nat
  answeredAt : Option Nat
  completedAt : Option Nat
  userId : Option String
  answeredBy : Option String
  initiatedBy : Option String
  fromField : Option String
  toField : Option String
  participants : Option (List String)
  dialogue : Option (List DialogueItem)
  transcriptDialogue : Option (List DialogueItem)
deriving DecidableEq, Repr

/-- The `data` member of the body: possibly a wrapper with `object`. -/
structure DataField where
  object : Option CallPayload
  fields : CallPayload
deriving DecidableEq, Repr

/-- The webhook body: `{ type, data }`. -/
structure WebhookBody where
  type : Option String
  data : Option DataField
deriving DecidableEq, Repr

/-- The request: `body` is `none` when `req.body` is undefined (the very
first dereference `req.body.type` then throws). -/
structure WebhookReq where
  body : Option WebhookBody
deriving DecidableEq, Repr

/-- The JSON acknowledgment sent back, plus the HTTP status. -/
structure WebhookAck where
  status : Nat
  received : Bool
  processed : Option Bool
  reason : Option String
  ackCallId : Option String
  willAnalyze : Option Bool
  phoneLine : Option String
  errorMsg : Option String
deriving DecidableEq, Repr

/-- The work the handler schedules after responding. -/
inductive PostAction where
  | noop
  | saveDialogue (callId : String) (dialogue : List DialogueItem)
      (duration : Nat) (status : Option String) (shouldAnalyze : Bool)
      (phoneNumberId : Option String)
  | delayedFetch (callId : String) (phoneNumberId : Option String)
deriving DecidableEq, Repr

/-- The canonical intermediate record both event branches extract into. -/
structure Extracted where
  callIdOpt : Option String
  phoneNumberId : Option String
  direction : Option String
  duration : Nat
  status : Option String
  fromNumber : String
  toNumber : String
  participants : List String
  dialogue : List DialogueItem
  createdAt : Nat
  answeredAt : Option Nat
  completedAt : Option Nat
  userId : Option String
  answeredBy : Option String
  initiatedBy : Option String
deriving DecidableEq, Repr

/-- Extraction for `call.transcript.completed` (webhook router
lines 358-420): dialogue from `callData.dialogue`, else
`callData.transcript?.dialogue`, else `data?.dialogue` (a present empty
array wins, arrays being truthy); timestamps default to now. -/
def extractTranscriptCompleted (cd : CallPayload)
    (dataDialogue : Option (List DialogueItem)) (now : Nat) : Extracted :=
  { callIdOpt := jsOrStr cd.callId cd.id
    phoneNumberId := cd.phoneNumberId
    direction := cd.direction
    duration := cd.duration.getD 0
    status := some (jsStrDefault cd.status "completed")
    fromNumber := jsStrDefault cd.fromField ""
    toNumber := jsStrDefault cd.toField ""
    participants := cd.participants.getD []
    dialogue := (cd.dialogue <|> cd.transcriptDialogue <|> dataDialogue).getD []
    createdAt := cd.createdAt.getD now
    answeredAt := none
    completedAt := some (cd.completedAt.getD now)
    userId := none
    answeredBy := none
    initiatedBy := none }

/-- Extraction for `call.completed` (webhook router lines 421-477):
embedded dialogue is taken from `transcript?.dialogue` first; from/to
come from the participants array positionally by direction, falling back
to explicit fields. -/
def extractCallCompleted (cd : CallPayload) (now : Nat) : Extracted :=
  let participants := cd.participants.getD []
  let pAt := fun (i : Nat) => cd.participants.bind (·.get? i)
  { callIdOpt := cd.id
    phoneNumberId := cd.phoneNumberId
    direction := cd.direction
    duration := cd.duration.getD 0
    status := cd.status
    fromNumber :=
      if cd.direction == some "incoming" then
        jsStrDefault (pAt 1) (jsStrDefault cd.fromField "")
      else jsStrDefault (pAt 0) (jsStrDefault cd.fromField "")
    toNumber :=
      if cd.direction == some "incoming" then
        jsStrDefault (pAt 0) (jsStrDefault cd.toField "")
      else jsStrDefault (pAt 1) (jsStrDefault cd.toField "")
    participants := participants
    dialogue := (cd.transcriptDialogue <|> cd.dialogue).getD []
    createdAt := cd.createdAt.getD now
    answeredAt := cd.answeredAt
    completedAt := cd.completedAt
    userId := cd.userId
    answeredBy := cd.answeredBy
    initiatedBy := cd.initiatedBy }

/-- The `calls` row the webhook inserts for a new call (lines 529-552). -/
def webhookCallRecord (ext : Extracted) (eventType : Option String)
    (routing : RoutingDecision) : CallRow :=
  { callId := ext.callIdOpt.getD "undefined"
    direction := ext.direction
    fromNumber := ext.fromNumber
    toNumber := ext.toNumber
    duration := ext.duration
    status := ext.status
    createdAt := ext.createdAt
    answeredAt := ext.answeredAt
    completedAt := ext.completedAt
    phoneNumberId := ext.phoneNumberId
    userId := ext.userId
    metadata := some (.webhook
      { phoneLine := routing.phoneLine
        shouldAnalyze := routing.shouldAnalyze
        filterReason := routing.filterReason
        eventType := eventType
        hasTranscript := !ext.dialogue.isEmpty }) }

/-- The call save of the webhook (lines 554-581): insert when new, else
a **partial** merge update — `status`, `completedAt`, `duration` and
`metadata` overwritten, `phoneNumberId`/`fromNumber`/`toNumber`/
`direction` kept when the event's value is falsy; `createdAt`,
`answeredAt`, `userId` untouched. -/
def webhookSaveCall (ext : Extracted) (record : CallRow) (db : DB) : DB :=
  let cid := record.callId
  if (db.calls.find? (·.callId == cid)).isSome then
    { db with calls := db.calls.map fun r =>
        if r.callId == cid then
          { r with status := ext.status
                   completedAt := ext.completedAt
                   duration := ext.duration
                   phoneNumberId := jsOrStr ext.phoneNumberId r.phoneNumberId
                   fromNumber := jsStrDefault (some ext.fromNumber) r.fromNumber
                   toNumber := jsStrDefault (some ext.toNumber) r.toNumber
                   direction := jsOrStr ext.direction r.direction
                   metadata := record.metadata }
        else r }
  else { db with calls := db.calls ++ [record] }

/-- The acknowledgment for an internal error (lines 750-757). -/
def errorAck : WebhookAck :=
  { status := 200, received := true, processed := none, reason := none,
    ackCallId := none, willAnalyze := none, phoneLine := none,
    errorMsg := some "Internal processing error" }

/-- The synchronous portion of the webhook handler.  Unrecognized types
are acknowledged and ignored; a missing `data` for a recognized type is
the thrown-`TypeError` path (property access on `undefined`), caught into
the always-200 error acknowledgment. -/
def openphoneWebhookHandler (req : WebhookReq) (env : Env) (now : Nat)
    (db : DB) : WebhookAck × DB × PostAction :=
  match req.body with
  | none => (errorAck, db, .noop)
  | some body =>
    let isCallCompleted := body.type == some "call.completed"
    let isTranscriptCompleted := body.type == some "call.transcript.completed"
    if !isCallCompleted && !isTranscriptCompleted then
      ({ status := 200, received := true, processed := some false,
         reason := some ("Not a call event (type: " ++ tmpl body.type ++ ")"),
         ackCallId := none, willAnalyze := none, phoneLine := none,
         errorMsg := none }, db, .noop)
    else
      match body.data with
      | none => (errorAck, db, .noop)
      | some dataF =>
        let cd := dataF.object.getD dataF.fields
        let ext :=
          if isTranscriptCompleted then
            extractTranscriptCompleted cd dataF.fields.dialogue now
          else extractCallCompleted cd now
        let routing := webhookRouting ext.phoneNumberId ext.direction ext.duration env
        let record := webhookCallRecord ext body.type routing
        let db1 := webhookSaveCall ext record db
        let ack : WebhookAck :=
          { status := 200, received := true, processed := some true,
            reason := none, ackCallId := some record.callId,
            willAnalyze := some routing.shouldAnalyze,
            phoneLine := some routing.phoneLine, errorMsg := none }
        let post : PostAction :=
          if !ext.dialogue.isEmpty then
            .saveDialogue record.callId ext.dialogue ext.duration ext.status
              routing.shouldAnalyze ext.phoneNumberId
          else if routing.shouldAnalyze && isCallCompleted then
            .delayedFetch record.callId ext.phoneNumberId
          else .noop
        (ack, db1, post)

/-- The transcript row the webhook's post-response step persists. -/
def webhookTranscriptRecord (callId : String) (ds : List DialogueItem)
    (duration : Nat) (status : Option String) : TranscriptRow :=
  { callId := callId
    fullText := webhookFullText ds
    segments := some (webhookSegments ds)
    duration := some duration
    status := status }

/-- The transcript-save step of the post-response work (webhook router
lines 621-701): filter to valid items; zero valid items is a thrown
error (`'No valid dialogue items in transcript'`) and nothing is
persisted; otherwise the transcript row is upserted. -/
def webhookSaveTranscriptStep (callId : String) (ds : List DialogueItem)
    (duration : Nat) (status : Option String) (db : DB) :
    Except String DB :=
  if webhookValidDialogue ds = [] then
    .error "No valid dialogue items in transcript"
  else .ok (upsertTranscript (webhookTranscriptRecord callId ds duration status) db)

/-- The whole post-response dialogue branch (lines 616-718): save the
transcript, then dispatch analysis when routing said yes; any exception
is logged only, leaving the database as it was at the throw point. -/
def webhookPostDialogue (callId : String) (ds : List DialogueItem)
    (duration : Nat) (status : Option String) (shouldAnalyze : Bool)
    (phoneNumberId : Option String) (env : Env)
    (llm : Except String LLMAnalysis) (db : DB) : DB :=
  match webhookSaveTranscriptStep callId ds duration status db with
  | .error _ => db
  | .ok db1 =>
    if shouldAnalyze then (analyzeCall ⟨callId, none, none, phoneNumberId⟩ env llm db1).2.1
    else db1

/-- The delayed-fetch branch (lines 719-745): after the fixed delay,
fetch the transcript via the API and analyze on success; failures are
logged only. -/
def webhookPostDelayedFetch (callId : String) (phoneNumberId : Option String)
    (tResp : Except String (Option OPTranscript)) (env : Env)
    (llm : Except String LLMAnalysis) (db : DB) : DB :=
  match fetchTranscriptForCall tResp db with
  | (.ok true, db1) => (analyzeCall ⟨callId, none, none, phoneNumberId⟩ env llm db1).2.1
  | (_, db1) => db1

/-! ## Helper lemmas -/

/-- A list is a prefix of itself followed by anything. -/
lemma listIsPre_self_append (p rest : List Char) : listIsPre p (p ++ rest) = true := by
  induction p with
  | nil => simp [listIsPre]
  | cons a t ih => simp [listIsPre, ih]

/-- A prefix occurrence is an occurrence. -/
lemma listIncl_of_isPre (pat l : List Char) (h : listIsPre pat l = true) :
    listIncl pat l = true := by
  cases l with
  | nil => simpa [listIncl] using h
  | cons b t => simp [listIncl, h]

/-- `(s ++ t).includes(s)` always holds. -/
lemma strIncludes_self_append (s t : String) : strIncludes (s ++ t) s = true := by
  have h : (s ++ t).data = s.data ++ t.data := String.data_append s t
  unfold strIncludes
  rw [h]
  exact listIncl_of_isPre _ _ (listIsPre_self_append _ _)

/-- Mapping a keyed in-place update over a list commutes with `find?` on
the same key predicate, provided the update preserves the key. -/
lemma find?_map_ite {α : Type} (p : α → Bool) (f : α → α)
    (hf : ∀ a, p a = true → p (f a) = true) (l : List α) :
    (l.map fun a => if p a then f a else a).find? p = (l.find? p).map f := by
  induction l with
  | nil => simp
  | cons a t ih =>
    by_cases h : p a = true
    · simp [List.map_cons, h, List.find?_cons_of_pos _ (hf a h),
        List.find?_cons_of_pos _ h]
    · have h' : p a = false := by simpa using h
      have e1 : (if p a = true then f a else a) = a := by simp [h']
      rw [List.map_cons, e1, List.find?_cons_of_neg _ (by simp [h']),
        List.find?_cons_of_neg _ (by simp [h']), ih]

/-- `find?` over an append whose left part has no match. -/
lemma find?_append_of_none {α : Type} (p : α → Bool) (l₁ l₂ : List α)
    (h : l₁.find? p = none) : (l₁ ++ l₂).find? p = l₂.find? p := by
  induction l₁ with
  | nil => simp
  | cons a t ih =>
    rw [List.find?_eq_none] at h
    have ha : ¬ p a = true := h a (by simp)
    have ht : t.find? p = none := by
      rw [List.find?_eq_none]
      exact fun x hx => h x (by simp [hx])
    simpa [List.cons_append, List.find?_cons_of_neg _ ha] using ih ht

/-- After `upsertAnalysis row`, looking the key up finds exactly `row`. -/
lemma findAnalysis_upsertAnalysis (row : AnalysisRow) (db : DB) :
    (upsertAnalysis row db).findAnalysis row.callId = some row := by
  unfold upsertAnalysis DB.findAnalysis
  cases hf : db.analyses.find? (·.callId == row.callId) with
  | some r =>
    have hm := find?_map_ite (fun x : AnalysisRow => x.callId == row.callId)
      (fun _ => row) (by simp) db.analyses
    simp only [hf, Option.isSome_some, if_true]
    simpa [hf] using hm
  | none =>
    have h2 := find?_append_of_none (fun x : AnalysisRow => x.callId == row.callId)
      db.analyses [row] hf
    simp only [hf, Option.isSome_none, Bool.false_eq_true, if_false]
    simp [h2, List.find?_cons_of_pos]

/-! ## C2 — line-routing policy -/

/-- C2 (amended): with a configured environment (both line ids set, non
blank and distinct), the webhook routing and the poll filter agree with
the policy: main line analyzes exactly incoming calls strictly longer
than 30 seconds (so 30 is excluded, 31 included), outbound line exactly
outgoing calls of any duration, and any other line id is never analyzed
— with the webhook's recorded reason containing the capitalized
`"Unknown phone number"` (the claim's lowercase `"unknown phone number"`
never occurs, see the counterexample; the poll filter records no per-call
reason string at all). -/
theorem C2_line_routing_policy (env : Env) (m o : String)
    (hm : env.mainId = some m) (ho : env.outboundId = some o)
    (hmo : m ≠ o) (hm0 : m ≠ "") (ho0 : o ≠ "") :
    (∀ dir dur, (webhookRouting (some m) dir dur env).shouldAnalyze = true ↔
        (dir = some "incoming" ∧ 30 < dur))
    ∧ (∀ dir dur, (webhookRouting (some o) dir dur env).shouldAnalyze = true ↔
        dir = some "outgoing")
    ∧ (∀ pid dir dur, pid ≠ some m → pid ≠ some o →
        (webhookRouting pid dir dur env).shouldAnalyze = false ∧
        strIncludes (webhookRouting pid dir dur env).filterReason
          "Unknown phone number" = true)
    ∧ (∀ (cs : List OpenPhoneCall) (c : OpenPhoneCall),
        c ∈ filterCallsForAnalysis cs m env ↔
          (c ∈ cs ∧ c.direction = "incoming" ∧ 30 < c.duration.getD 0))
    ∧ (∀ (cs : List OpenPhoneCall) (c : OpenPhoneCall),
        c ∈ filterCallsForAnalysis cs o env ↔
          (c ∈ cs ∧ c.direction = "outgoing"))
    ∧ (∀ (cs : List OpenPhoneCall) pid, pid ≠ m → pid ≠ o →
        filterCallsForAnalysis cs pid env = []) := by
  have hmainD : env.mainDflt = m := by
    simp [Env.mainDflt, hm, jsStrDefault, hm0]
  have houtD : env.outboundDflt = o := by
    simp [Env.outboundDflt, ho, jsStrDefault, ho0]
  refine ⟨?_, ?_, ?_, ?_, ?_, ?_⟩
  · intro dir dur
    simp [webhookRouting, hm, Bool.and_eq_true]
  · intro dir dur
    have hne : (some o == env.mainId) = false := by
      simp [hm]
      exact fun h => hmo h.symm
    simp [webhookRouting, hne, ho]
  · intro pid dir dur h1 h2
    have hne1 : (pid == env.mainId) = false := by
      simp [hm]
      intro h; exact h1 (by simp [h])
    have hne2 : (pid == env.outboundId) = false := by
      simp [ho]
      intro h; exact h2 (by simp [h])
    constructor
    · simp [webhookRouting, hne1, hne2]
    · simp only [webhookRouting, hne1, hne2, Bool.false_eq_true, if_false]
      exact strIncludes_self_append "Unknown phone number: " (tmpl pid)
  · intro cs c
    have h1 : (m == env.mainDflt) = true := by simp [hmainD]
    have h2 : (m == env.outboundDflt) = false := by simp [houtD, hmo]
    simp [filterCallsForAnalysis, h1, h2, List.mem_filter, Bool.and_eq_true,
      and_assoc]
  · intro cs c
    have h1 : (o == env.mainDflt) = false := by
      simp [hmainD]; exact fun h => hmo h.symm
    have h2 : (o == env.outboundDflt) = true := by simp [houtD]
    simp [filterCallsForAnalysis, h1, h2, List.mem_filter, Bool.and_eq_true]
  · intro cs pid h1 h2
    have hp1 : (pid == env.mainDflt) = false := by simp [hmainD, h1]
    have hp2 : (pid == env.outboundDflt) = false := by simp [houtD, h2]
    simp [filterCallsForAnalysis, hp1, hp2]

/-- C2 witness: concrete environment, main line, incoming, 31 seconds. -/
theorem C2_line_routing_policy_witness :
    (⟨some "PNmain", some "PNout"⟩ : Env).mainId = some "PNmain"
    ∧ (⟨some "PNmain", some "PNout"⟩ : Env).outboundId = some "PNout"
    ∧ ("PNmain" : String) ≠ "PNout"
    ∧ ("PNmain" : String) ≠ "" ∧ ("PNout" : String) ≠ ""
    ∧ ((webhookRouting (some "PNmain") (some "incoming") 31
          ⟨some "PNmain", some "PNout"⟩).shouldAnalyze = true ↔
        ((some "incoming" : Option String) = some "incoming" ∧ 30 < 31)) :=
  ⟨rfl, rfl, by decide, by decide, by decide,
    (C2_line_routing_policy ⟨some "PNmain", some "PNout"⟩ "PNmain" "PNout"
      rfl rfl (by decide) (by decide) (by decide)).1 (some "incoming") 31⟩

/-- C2 counterexample: at an unknown line id the webhook's recorded
reason is `"Unknown phone number: PNx"`, which does **not** contain the
claim's case-sensitive substring `"unknown phone number"` (the decision
itself is correctly `false`). -/
theorem C2_reason_case_counterexample :
    (webhookRouting (some "PNx") (some "incoming") 45
        ⟨some "PNmain", some "PNout"⟩).shouldAnalyze = false
    ∧ strIncludes (webhookRouting (some "PNx") (some "incoming") 45
        ⟨some "PNmain", some "PNout"⟩).filterReason "unknown phone number"
        = false := by
  decide

/-! ## C6 — idempotent call upsert -/

/-- C6: starting from a store with no row for the call id, upserting the
same `OpenPhoneCall` twice reports "inserted" (`false`) then "updated"
(`true`), leaves exactly one row for that id, and the store after the
second call is identical to the store after the first. -/
theorem C6_upsertCall_idempotent (c : OpenPhoneCall) (db : DB)
    (h : db.calls.find? (·.callId == c.id) = none) :
    (upsertCall c db).1 = false
    ∧ (upsertCall c (upsertCall c db).2).1 = true
    ∧ ((upsertCall c (upsertCall c db).2).2.calls.countP (·.callId == c.id)) = 1
    ∧ (upsertCall c (upsertCall c db).2).2 = (upsertCall c db).2 := by
  have hnotin : ∀ r ∈ db.calls, ¬ (r.callId == c.id) = true :=
    List.find?_eq_none.mp h
  have hrow : (callRowOfOP c).callId == c.id := by
    simp [callRowOfOP]
  have hfind2 :
      (db.calls ++ [callRowOfOP c]).find? (·.callId == c.id) =
        some (callRowOfOP c) := by
    rw [find?_append_of_none _ _ _ h]
    simp [List.find?_cons_of_pos, hrow]
  have hfst : upsertCall c db =
      (false, { db with calls := db.calls ++ [callRowOfOP c] }) := by
    unfold upsertCall
    simp [h]
  have hmap :
      (db.calls ++ [callRowOfOP c]).map
          (fun r => if r.callId == c.id then callRowOfOP c else r) =
        db.calls ++ [callRowOfOP c] := by
    rw [List.map_append]
    have h1 : db.calls.map
        (fun r => if r.callId == c.id then callRowOfOP c else r) = db.calls := by
      have := List.map_congr_left
        (l := db.calls)
        (f := fun r => if r.callId == c.id then callRowOfOP c else r)
        (g := id)
        (fun r hr => by simp [hnotin r hr])
      simpa using this
    have h2 : ([callRowOfOP c]).map
        (fun r => if r.callId == c.id then callRowOfOP c else r) =
          [callRowOfOP c] := by
      simp
    rw [h1, h2]
  have hsnd : upsertCall c (upsertCall c db).2 =
      (true, { db with calls := db.calls ++ [callRowOfOP c] }) := by
    rw [hfst]
    unfold upsertCall
    simp only [hfind2, Option.isSome_some, if_true, hmap]
  refine ⟨by rw [hfst], by rw [hsnd], ?_, by rw [hsnd, hfst]⟩
  rw [hsnd]
  have h0 : db.calls.countP (·.callId == c.id) = 0 :=
    List.countP_eq_zero.mpr hnotin
  simp [List.countP_append, h0, List.countP_cons, hrow]

/-- C6 witness: a concrete first-time call upserted twice into an empty
store. -/
theorem C6_upsertCall_idempotent_witness :
    (([] : List CallRow).find? (·.callId == "c1") = none)
    ∧ ((upsertCall ⟨"c1", "PNmain", none, "incoming", "completed", [],
        some 45, 0, none, none, none, none⟩ ⟨[], [], []⟩).1 = false
      ∧ (upsertCall ⟨"c1", "PNmain", none, "incoming", "completed", [],
          some 45, 0, none, none, none, none⟩
          (upsertCall ⟨"c1", "PNmain", none, "incoming", "completed", [],
            some 45, 0, none, none, none, none⟩ ⟨[], [], []⟩).2).1 = true
      ∧ ((upsertCall ⟨"c1", "PNmain", none, "incoming", "completed", [],
          some 45, 0, none, none, none, none⟩
          (upsertCall ⟨"c1", "PNmain", none, "incoming", "completed", [],
            some 45, 0, none, none, none, none⟩ ⟨[], [], []⟩).2).2.calls.countP
            (·.callId == "c1")) = 1
      ∧ (upsertCall ⟨"c1", "PNmain", none, "incoming", "completed", [],
          some 45, 0, none, none, none, none⟩
          (upsertCall ⟨"c1", "PNmain", none, "incoming", "completed", [],
            some 45, 0, none, none, none, none⟩ ⟨[], [], []⟩).2).2 =
        (upsertCall ⟨"c1", "PNmain", none, "incoming", "completed", [],
          some 45, 0, none, none, none, none⟩ ⟨[], [], []⟩).2) :=
  ⟨rfl, C6_upsertCall_idempotent _ _ rfl⟩

/-! ## C1 — empty/broken transcripts short-circuit the LLM -/

/-- `saveAnalysisToDatabase` always leaves a row under the given call id
(the one it just built). -/
lemma findAnalysis_saveAnalysisToDatabase (cid : String) (a : LLMAnalysis)
    (pid dir : Option String) (env : Env) (db : DB) :
    ∃ row, (saveAnalysisToDatabase cid a pid dir env db).findAnalysis cid = some row
      ∧ row.callId = cid := by
  unfold saveAnalysisToDatabase
  exact ⟨_, findAnalysis_upsertAnalysis _ db, rfl⟩

/-- C1: when the stored transcript of an existing call classifies as
empty or broken, `analyzeCall` never reaches the scoring function,
returns `success := true` with score `0`, and persists an `analyses` row
with score `0` and compliance verdict `"Review"`. -/
theorem C1_empty_or_broken_short_circuit (opts : AnalyzeCallOptions)
    (env : Env) (llm : Except String LLMAnalysis) (db : DB)
    (call : CallRow) (t : TranscriptRow)
    (hprov : opts.transcriptText = none)
    (hcall : db.findCall opts.callId = some call)
    (ht : db.findTranscript opts.callId = some t)
    (hcl : (classify t.fullText t.segments).1 = false ∨
           (classify t.fullText t.segments).2 = true) :
    (analyzeCall opts env llm db).2.2 = false
    ∧ (analyzeCall opts env llm db).1.success = true
    ∧ (analyzeCall opts env llm db).1.score = some 0
    ∧ ∃ row, (analyzeCall opts env llm db).2.1.findAnalysis opts.callId = some row
        ∧ row.score = 0 ∧ row.complianceCheck = "Review" := by
  have hcond : (!(classify t.fullText t.segments).1 ||
      (classify t.fullText t.segments).2) = true := by
    rcases hcl with h | h <;> simp [h]
  unfold analyzeCall
  simp only [hcall, resolveTranscript, hprov, truthyS, Bool.false_eq_true,
    if_false, ht, Option.map_some', hcond, if_true]
  refine ⟨trivial, trivial, trivial, ?_⟩
  obtain ⟨row1, hrow1, -⟩ := findAnalysis_saveAnalysisToDatabase opts.callId
    (placeholderAnalysis (classify t.fullText t.segments).2)
    opts.phoneNumberId none env db
  have hmap := find?_map_ite (fun r : AnalysisRow => r.callId == opts.callId)
    (fun r => { r with
                score := (0 : Int), sentiment := (none : Option String),
                complianceCheck := "Review",
                complianceNotes := some ("Unable to analyze - " ++
                  strToLower (noContentReason (classify t.fullText t.segments).2) ++ "."),
                metadata := noContentMetadata opts.phoneNumberId env
                  (classify t.fullText t.segments).2 })
    (fun a ha => ha)
    (saveAnalysisToDatabase opts.callId
      (placeholderAnalysis (classify t.fullText t.segments).2)
      opts.phoneNumberId none env db).analyses
  refine ⟨{ row1 with
            score := 0, sentiment := none, complianceCheck := "Review",
            complianceNotes := some ("Unable to analyze - " ++
              strToLower (noContentReason (classify t.fullText t.segments).2) ++ "."),
            metadata := noContentMetadata opts.phoneNumberId env
              (classify t.fullText t.segments).2 }, ?_, rfl, rfl⟩
  show List.find? _ _ = _
  rw [hmap]
  have hrow1' : (saveAnalysisToDatabase opts.callId
      (placeholderAnalysis (classify t.fullText t.segments).2)
      opts.phoneNumberId none env db).analyses.find?
        (fun r => r.callId == opts.callId) = some row1 := hrow1
  rw [hrow1']
  rfl

/-- C1 witness: a call whose stored transcript has blank text and an
empty segments array (classified empty, not broken). -/
theorem C1_empty_or_broken_short_circuit_witness :
    ((⟨"c1", none, none, some "PNmain"⟩ : AnalyzeCallOptions).transcriptText = none)
    ∧ ((⟨[⟨"c1", some "incoming", "+15550001", "+15550002", 45,
          some "completed", 0, none, none, some "PNmain", none, none⟩],
        [⟨"c1", "", some [], some 45, some "completed"⟩], []⟩ : DB).findCall "c1" =
        some ⟨"c1", some "incoming", "+15550001", "+15550002", 45,
          some "completed", 0, none, none, some "PNmain", none, none⟩)
    ∧ ((⟨[⟨"c1", some "incoming", "+15550001", "+15550002", 45,
          some "completed", 0, none, none, some "PNmain", none, none⟩],
        [⟨"c1", "", some [], some 45, some "completed"⟩], []⟩ : DB).findTranscript "c1" =
        some ⟨"c1", "", some [], some 45, some "completed"⟩)
    ∧ ((classify "" (some [])).1 = false)
    ∧ ((analyzeCall ⟨"c1", none, none, some "PNmain"⟩ ⟨some "PNmain", some "PNout"⟩
          (.error "no llm available")
          ⟨[⟨"c1", some "incoming", "+15550001", "+15550002", 45,
            some "completed", 0, none, none, some "PNmain", none, none⟩],
          [⟨"c1", "", some [], some 45, some "completed"⟩], []⟩).2.2 = false
      ∧ (analyzeCall ⟨"c1", none, none, some "PNmain"⟩ ⟨some "PNmain", some "PNout"⟩
          (.error "no llm available")
          ⟨[⟨"c1", some "incoming", "+15550001", "+15550002", 45,
            some "completed", 0, none, none, some "PNmain", none, none⟩],
          [⟨"c1", "", some [], some 45, some "completed"⟩], []⟩).1.success = true
      ∧ (analyzeCall ⟨"c1", none, none, some "PNmain"⟩ ⟨some "PNmain", some "PNout"⟩
          (.error "no llm available")
          ⟨[⟨"c1", some "incoming", "+15550001", "+15550002", 45,
            some "completed", 0, none, none, some "PNmain", none, none⟩],
          [⟨"c1", "", some [], some 45, some "completed"⟩], []⟩).1.score = some 0
      ∧ ∃ row, (analyzeCall ⟨"c1", none, none, some "PNmain"⟩
          ⟨some "PNmain", some "PNout"⟩ (.error "no llm available")
          ⟨[⟨"c1", some "incoming", "+15550001", "+15550002", 45,
            some "completed", 0, none, none, some "PNmain", none, none⟩],
          [⟨"c1", "", some [], some 45, some "completed"⟩], []⟩).2.1.findAnalysis "c1" =
            some row ∧ row.score = 0 ∧ row.complianceCheck = "Review") :=
  ⟨rfl, rfl, rfl, by decide,
    C1_empty_or_broken_short_circuit _ _ _ _ _ _ rfl rfl rfl (Or.inl (by decide))⟩

/-! ## C3 — score validation -/

/-- `saveAnalysisToDatabase` leaves exactly the built row under the id. -/
lemma findAnalysis_saveAnalysisToDatabase_eq (cid : String) (a : LLMAnalysis)
    (pid dir : Option String) (env : Env) (db : DB) :
    (saveAnalysisToDatabase cid a pid dir env db).findAnalysis cid =
      some (analysisRowFor cid a pid dir env) :=
  findAnalysis_upsertAnalysis _ db

/-- C3: on the scored path (call present, caller-supplied transcript text
that classifies as analyzable), any successful run persists a score in
[0,100] equal to the validated numeric score of the response, and a
response whose score is 150, or the string "abc", is rejected: the
dispatch fails with the validation error and the database is untouched. -/
theorem C3_score_validated_in_range (opts : AnalyzeCallOptions) (env : Env)
    (db : DB) (call : CallRow) (txt : String)
    (hcall : db.findCall opts.callId = some call)
    (hprov : opts.transcriptText = some txt)
    (htx : txt ≠ "")
    (hcl : classify txt none = (true, false)) :
    (∀ a : LLMAnalysis, (analyzeCall opts env (.ok a) db).1.success = true →
      ∃ n : Int, a.score = .num n ∧ 0 ≤ n ∧ n ≤ 100
        ∧ ∃ row, (analyzeCall opts env (.ok a) db).2.1.findAnalysis opts.callId = some row
            ∧ row.score = n ∧ 0 ≤ row.score ∧ row.score ≤ 100)
    ∧ (∀ a : LLMAnalysis, a.score = .num 150 ∨ a.score = .str "abc" →
        (analyzeCall opts env (.ok a) db).1.success = false
        ∧ (analyzeCall opts env (.ok a) db).1.error = some "Invalid score in analysis result"
        ∧ (analyzeCall opts env (.ok a) db).2.1 = db) := by
  have hres : resolveTranscript opts db = some (txt, none) := by
    simp [resolveTranscript, hprov, truthyS, htx]
  constructor
  · intro a hsucc
    unfold analyzeCall at hsucc ⊢
    rw [hcall, hres] at hsucc ⊢
    dsimp only at hsucc ⊢
    rw [hcl] at hsucc ⊢
    simp only [Bool.not_true, Bool.false_or, Bool.false_eq_true, if_false] at hsucc ⊢
    cases hsc : a.score with
    | num n =>
      rw [hsc] at hsucc
      dsimp only at hsucc ⊢
      by_cases h01 : 0 ≤ n ∧ n ≤ 100
      · rw [if_pos h01] at hsucc ⊢
        refine ⟨n, rfl, h01.1, h01.2, analysisRowFor opts.callId a opts.phoneNumberId
          (jsOrStr opts.callDirection call.direction) env, ?_, ?_, ?_, ?_⟩
        · exact findAnalysis_saveAnalysisToDatabase_eq _ _ _ _ _ _
        · simp [analysisRowFor, hsc]
        · simp [analysisRowFor, hsc]; exact h01.1
        · simp [analysisRowFor, hsc]; exact h01.2
      · rw [if_neg h01] at hsucc
        simp at hsucc
    | str s => rw [hsc] at hsucc; simp at hsucc
    | missing => rw [hsc] at hsucc; simp at hsucc
  · intro a hbad
    unfold analyzeCall
    rw [hcall, hres]
    dsimp only
    rw [hcl]
    simp only [Bool.not_true, Bool.false_or, Bool.false_eq_true, if_false]
    rcases hbad with h | h
    · rw [h]
      dsimp only
      rw [if_neg (by omega)]
      exact ⟨rfl, rfl, rfl⟩
    · rw [h]
      exact ⟨rfl, rfl, rfl⟩


/-- C3 witness: a call with caller-supplied analyzable text; the LLM
responds with score 80. -/
theorem C3_score_validated_in_range_witness :
    ((⟨[⟨"c1", some "incoming", "+15550001", "+15550002", 45, some "completed",
        0, none, none, some "PNmain", none, none⟩], [], []⟩ : DB).findCall "c1" =
      some ⟨"c1", some "incoming", "+15550001", "+15550002", 45, some "completed",
        0, none, none, some "PNmain", none, none⟩)
    ∧ ((⟨"c1", some "Hello there, how can I help you today", none, none⟩ :
        AnalyzeCallOptions).transcriptText =
          some "Hello there, how can I help you today")
    ∧ ("Hello there, how can I help you today" ≠ "")
    ∧ (classify "Hello there, how can I help you today" none = (true, false))
    ∧ (∃ n : Int,
        (⟨.num 80, some "ok", some "Positive",
          some [("greeting", ⟨some true, some "good"⟩)], none, none, none,
          none⟩ : LLMAnalysis).score = .num n ∧ 0 ≤ n ∧ n ≤ 100
        ∧ ∃ row,
          (analyzeCall ⟨"c1", some "Hello there, how can I help you today", none, none⟩
            ⟨some "PNmain", some "PNout"⟩
            (.ok ⟨.num 80, some "ok", some "Positive",
              some [("greeting", ⟨some true, some "good"⟩)], none, none, none, none⟩)
            ⟨[⟨"c1", some "incoming", "+15550001", "+15550002", 45, some "completed",
              0, none, none, some "PNmain", none, none⟩], [], []⟩).2.1.findAnalysis "c1" =
              some row ∧ row.score = n ∧ 0 ≤ row.score ∧ row.score ≤ 100) :=
  ⟨rfl, rfl, by decide, by decide,
    (C3_score_validated_in_range
      ⟨"c1", some "Hello there, how can I help you today", none, none⟩
      ⟨some "PNmain", some "PNout"⟩
      ⟨[⟨"c1", some "incoming", "+15550001", "+15550002", 45, some "completed",
        0, none, none, some "PNmain", none, none⟩], [], []⟩
      ⟨"c1", some "incoming", "+15550001", "+15550002", 45, some "completed",
        0, none, none, some "PNmain", none, none⟩
      "Hello there, how can I help you today"
      rfl rfl (by decide) (by decide)).1
      ⟨.num 80, some "ok", some "Positive",
        some [("greeting", ⟨some true, some "good"⟩)], none, none, none, none⟩
      (by decide)⟩

/-! ## C4 — `analyzeCall` never throws; specific error results -/

/-- C4: `analyzeCall` is a total function whose every failure carries an
error string; a missing call row yields exactly the "Call not found"
failure; an existing call with no caller-supplied text and no stored
transcript yields the "Transcript not found for this call" failure
(whose message contains "Transcript not found"); and on the scored path
a thrown scoring-function exception is caught and returned as
`success := false` with the exception's message, leaving the database
untouched. -/
theorem C4_never_throws_error_paths (opts : AnalyzeCallOptions) (env : Env)
    (llm : Except String LLMAnalysis) (db : DB) :
    ((analyzeCall opts env llm db).1.success = true ∨
      ((analyzeCall opts env llm db).1.error).isSome = true)
    ∧ (db.findCall opts.callId = none →
        (analyzeCall opts env llm db).1 =
          ⟨false, opts.callId, none, some "Call not found"⟩)
    ∧ (∀ call, db.findCall opts.callId = some call →
        truthyS opts.transcriptText = false →
        db.findTranscript opts.callId = none →
        (analyzeCall opts env llm db).1 =
          ⟨false, opts.callId, none, some "Transcript not found for this call"⟩
        ∧ strIncludes "Transcript not found for this call" "Transcript not found" = true)
    ∧ (∀ e call txt segs, llm = .error e →
        db.findCall opts.callId = some call →
        resolveTranscript opts db = some (txt, segs) →
        (!(classify txt segs).1 || (classify txt segs).2) = false →
        (analyzeCall opts env llm db).1 = ⟨false, opts.callId, none, some e⟩
        ∧ (analyzeCall opts env llm db).2.1 = db) := by
  refine ⟨?_, ?_, ?_, ?_⟩
  · unfold analyzeCall
    repeat' (first | exact Or.inl rfl | exact Or.inr rfl | split | dsimp only)
  · intro h
    unfold analyzeCall
    rw [h]
  · intro call hc hpt hnt
    have hres : resolveTranscript opts db = none := by
      simp [resolveTranscript, hpt, hnt]
    unfold analyzeCall
    rw [hc, hres]
    exact ⟨rfl, by decide⟩
  · intro e call txt segs he hc hres hcl
    subst he
    unfold analyzeCall
    rw [hc, hres]
    dsimp only
    rw [hcl]
    simp only [Bool.false_eq_true, if_false]
    exact ⟨trivial, trivial⟩

/-- C4 witness: the call-missing case on an empty store, plus the caught
LLM exception on a concrete scored path. -/
theorem C4_never_throws_error_paths_witness :
    ((⟨[], [], []⟩ : DB).findCall "nope" = none)
    ∧ ((analyzeCall ⟨"nope", none, none, none⟩ ⟨none, none⟩ (.error "boom")
        ⟨[], [], []⟩).1 = ⟨false, "nope", none, some "Call not found"⟩) :=
  ⟨rfl, (C4_never_throws_error_paths ⟨"nope", none, none, none⟩ ⟨none, none⟩
    (.error "boom") ⟨[], [], []⟩).2.1 rfl⟩


/-! ## C5 — all-invalid dialogue lists -/

/-- C5 counterexample: a two-item dialogue in which every item lacks both
text content and a speaker-identifying field.  The record the poll-path
normalizer builds for it renders each item as `"Unknown: "`, and the
dispatcher's classifier then reports it as having content — the scored
path, not the broken placeholder path the claim requires. -/
theorem C5_all_invalid_dialogue_counterexample :
    (∀ d ∈ ([⟨none, none, none, none, none⟩, ⟨none, none, none, none, none⟩] :
        List DialogueItem), d.content = none ∧ d.userId = none ∧ d.identifier = none)
    ∧ pollFullText [⟨none, none, none, none, none⟩, ⟨none, none, none, none, none⟩] =
        "Unknown: \nUnknown: "
    ∧ classify
        (pollFullText [⟨none, none, none, none, none⟩, ⟨none, none, none, none, none⟩])
        (some (pollSegments
          [⟨none, none, none, none, none⟩, ⟨none, none, none, none, none⟩])) =
        (true, false) := by
  decide

/-- C5 (amended): for every dialogue list in which every item lacks both
text content and a speaker-identifying field, the webhook normalizer
rejects it (zero valid items, transcript-save throws and persists
nothing, the whole post-response dialogue branch leaves the database
unchanged); and the dispatcher's classifier, whenever the stored full
text does not itself pass the content check, never reports content for
segments that all lack text and speaker — it reports broken exactly when
some segment carries both `start` and `end`, and empty otherwise.  (The
poll-path normalizer, by contrast, persists such dialogue with
placeholder speakers, and its rendered full text can pass the content
check — the counterexample.) -/
theorem C5_all_invalid_dialogue_handling :
    (∀ ds : List DialogueItem,
      (∀ d ∈ ds, d.content = none ∧ d.userId = none ∧ d.identifier = none) →
      webhookValidDialogue ds = []
      ∧ (∀ (cid : String) (dur : Nat) (st : Option String) (db : DB),
          webhookSaveTranscriptStep cid ds dur st db =
            .error "No valid dialogue items in transcript")
      ∧ (∀ (cid : String) (dur : Nat) (st : Option String) (sa : Bool)
          (pid : Option String) (env : Env) (llm : Except String LLMAnalysis)
          (db : DB), webhookPostDialogue cid ds dur st sa pid env llm db = db))
    ∧ (∀ (ft : String) (segs : List Seg),
        (∀ s ∈ segs, (s.text = none ∨ s.text = some "") ∧ s.speaker = none) →
        ftCheck ft = (false, false) →
        classify ft (some segs) =
          (false, segs.any fun s => s.start.isSome && s.endTime.isSome)) := by
  constructor
  · intro ds hds
    have hval : webhookValidDialogue ds = [] := by
      unfold webhookValidDialogue
      rw [List.filter_eq_nil_iff]
      intro d hd
      obtain ⟨hc, -, -⟩ := hds d hd
      simp [validDialogueItem, hc]
    refine ⟨hval, ?_, ?_⟩
    · intro cid dur st db
      unfold webhookSaveTranscriptStep
      rw [if_pos hval]
    · intro cid dur st sa pid env llm db
      unfold webhookPostDialogue webhookSaveTranscriptStep
      rw [if_pos hval]
  · intro ft segs hseg hft
    unfold classify
    rw [hft]
    dsimp only
    have hv : segs.filter validSeg = [] := by
      rw [List.filter_eq_nil_iff]
      intro s hs
      obtain ⟨ht, -⟩ := hseg s hs
      rcases ht with h | h <;> simp [validSeg, h, strTrim]
    have hb : segs.filter brokenSeg =
        segs.filter (fun s => s.start.isSome && s.endTime.isSome) := by
      apply List.filter_congr
      intro s hs
      obtain ⟨ht, hsp⟩ := hseg s hs
      rcases ht with h | h <;> simp [brokenSeg, h, hsp]
    rw [hv, hb]
    simp only [ne_eq, not_true_eq_false, if_false]
    cases hany : segs.any (fun s => s.start.isSome && s.endTime.isSome) with
    | true =>
      have : segs.filter (fun s => s.start.isSome && s.endTime.isSome) ≠ [] := by
        obtain ⟨s, hs, hfs⟩ := List.any_eq_true.mp hany
        intro hnil
        have := List.filter_eq_nil_iff.mp hnil s hs
        exact this hfs
      simp [this]
    | false =>
      have : segs.filter (fun s => s.start.isSome && s.endTime.isSome) = [] := by
        rw [List.filter_eq_nil_iff]
        intro s hs hfs
        have : segs.any (fun s => s.start.isSome && s.endTime.isSome) = true :=
          List.any_eq_true.mpr ⟨s, hs, hfs⟩
        rw [hany] at this
        exact Bool.false_ne_true this
      simp [this]

/-- C5 witness: a singleton all-missing dialogue item for the webhook
half; a timestamped speakerless/textless segment for the dispatcher half
(classified broken). -/
theorem C5_all_invalid_dialogue_handling_witness :
    (∀ d ∈ ([⟨none, none, none, none, none⟩] : List DialogueItem),
      d.content = none ∧ d.userId = none ∧ d.identifier = none)
    ∧ webhookValidDialogue [⟨none, none, none, none, none⟩] = []
    ∧ webhookSaveTranscriptStep "c1" [⟨none, none, none, none, none⟩] 10 none
        ⟨[], [], []⟩ = .error "No valid dialogue items in transcript"
    ∧ (∀ s ∈ ([⟨some 1, some 2, none, none⟩] : List Seg),
        (s.text = none ∨ s.text = some "") ∧ s.speaker = none)
    ∧ ftCheck "" = (false, false)
    ∧ classify "" (some [⟨some 1, some 2, none, none⟩]) =
        (false, ([⟨some 1, some 2, none, none⟩] : List Seg).any
          fun s => s.start.isSome && s.endTime.isSome) :=
  ⟨by decide,
   (C5_all_invalid_dialogue_handling.1 _ (by decide)).1,
   (C5_all_invalid_dialogue_handling.1 _ (by decide)).2.1 "c1" 10 none ⟨[], [], []⟩,
   by decide, by decide,
   C5_all_invalid_dialogue_handling.2 "" _ (by decide) (by decide)⟩

/-! ## C9 — push-path vs poll-path normalization -/

/-- C9 counterexample: the two normalizers disagree.  A dialogue with one
valid and one all-missing item gets different full texts (the webhook
drops the invalid item, the poll path renders it as `"Unknown: "`), and
even a single fully-valid item without timestamps gets different
segments (the webhook defaults `start`/`end` to `0`, the poll path
leaves them absent). -/
theorem C9_normalizer_divergence_counterexample :
    webhookFullText
        [⟨some "Hi", some "A", none, none, none⟩, ⟨none, none, none, none, none⟩]
      ≠ pollFullText
        [⟨some "Hi", some "A", none, none, none⟩, ⟨none, none, none, none, none⟩]
    ∧ webhookSegments [⟨some "Hi", some "A", none, none, none⟩]
      ≠ pollSegments [⟨some "Hi", some "A", none, none, none⟩] := by
  decide

/-- C9 (amended): the webhook push path and the poll fetch path build the
same transcript record — same full text and same segments — exactly on
dialogues whose every item passes the webhook validity test and carries
explicit `start` and `end`; items failing validity are dropped by the
webhook but kept (with `"Unknown"`/`""` placeholders) by the poll path,
and missing timestamps are defaulted to `0` only by the webhook. -/
theorem C9_normalizers_agree_on_valid_dialogue (ds : List DialogueItem)
    (h : ∀ d ∈ ds, validDialogueItem d = true ∧ d.start.isSome ∧ d.endTime.isSome) :
    webhookFullText ds = pollFullText ds
    ∧ webhookSegments ds = pollSegments ds := by
  have hfil : webhookValidDialogue ds = ds := by
    unfold webhookValidDialogue
    rw [List.filter_eq_self]
    intro d hd
    exact (h d hd).1
  constructor
  · unfold webhookFullText pollFullText
    rw [hfil]
  · unfold webhookSegments pollSegments
    rw [hfil]
    apply List.map_congr_left
    intro d hd
    obtain ⟨-, hs, he⟩ := h d hd
    obtain ⟨n, hn⟩ := Option.isSome_iff_exists.mp hs
    obtain ⟨m, hm⟩ := Option.isSome_iff_exists.mp he
    simp [hn, hm]

/-- C9 witness: one valid timestamped item. -/
theorem C9_normalizers_agree_on_valid_dialogue_witness :
    (∀ d ∈ ([⟨some "Hi", some "A", none, some 1, some 2⟩] : List DialogueItem),
      validDialogueItem d = true ∧ d.start.isSome ∧ d.endTime.isSome)
    ∧ (webhookFullText [⟨some "Hi", some "A", none, some 1, some 2⟩] =
        pollFullText [⟨some "Hi", some "A", none, some 1, some 2⟩]
      ∧ webhookSegments [⟨some "Hi", some "A", none, some 1, some 2⟩] =
        pollSegments [⟨some "Hi", some "A", none, some 1, some 2⟩]) :=
  ⟨by decide, C9_normalizers_agree_on_valid_dialogue _ (by decide)⟩


/-! ## C7 — poll-pipeline resilience -/

/-- The upsert loop counts every completed call. -/
lemma upsertPhase_count : ∀ (cs : List OpenPhoneCall) (db : DB),
    (upsertPhase cs db).1 = cs.length
  | [], _ => rfl
  | c :: rest, db => by
    simp [upsertPhase, upsertPhase_count rest (upsertCall c db).2]

/-- One step of the transcript loop counts iff the call's own response
holds a non-empty dialogue — independently of the database state. -/
lemma fetchTranscriptForCall_found (resp : Except String (Option OPTranscript))
    (db : DB) :
    (match (fetchTranscriptForCall resp db).1 with
      | .ok true => true | _ => false) = transcriptFound resp := by
  cases resp with
  | error e =>
    unfold fetchTranscriptForCall transcriptFound
    by_cases h : strIncludes e "404" = true
    · simp [h]
    · have h' : strIncludes e "404" = false := by simpa using h
      simp [h']
  | ok t =>
    cases t with
    | none => rfl
    | some tr =>
      cases htr : tr.dialogue with
      | none => simp [fetchTranscriptForCall, transcriptFound, htr]
      | some l =>
        cases l with
        | nil => simp [fetchTranscriptForCall, transcriptFound, htr]
        | cons d rest => simp [fetchTranscriptForCall, transcriptFound, htr]

/-- The transcript loop's count is the pointwise count of successful
per-call responses: one call's failure cannot affect another's. -/
lemma transcriptPhase_count (tResp : String → Except String (Option OPTranscript)) :
    ∀ (cs : List OpenPhoneCall) (db : DB),
      (transcriptPhase tResp cs db).1 =
        cs.countP fun c => transcriptFound (tResp c.id)
  | [], _ => by simp [transcriptPhase]
  | c :: rest, db => by
    have hstep := fetchTranscriptForCall_found (tResp c.id) db
    have ih := transcriptPhase_count tResp rest (fetchTranscriptForCall (tResp c.id) db).2
    simp only [transcriptPhase, List.countP_cons]
    cases hm : (fetchTranscriptForCall (tResp c.id) db).1 with
    | error e =>
      rw [hm] at hstep
      simp at hstep
      simp [ih, ← hstep]
    | ok b =>
      cases b with
      | true =>
        rw [hm] at hstep
        simp at hstep
        simp [ih, ← hstep]
      | false =>
        rw [hm] at hstep
        simp at hstep
        simp [ih, ← hstep]

/-- The analysis loop visits every qualifying call — triggered analyses
and recorded failures partition the list — and every recorded error
string names the failing call with the `"Analysis failed for call "`
prefix. -/
lemma analysisPhase_spec (opts : SyncOptions) (env : Env)
    (llm : String → Except String LLMAnalysis) :
    ∀ (cs : List OpenPhoneCall) (db : DB),
      (analysisPhase opts env llm cs db).1 +
        (analysisPhase opts env llm cs db).2.1.length = cs.length
      ∧ ∀ s ∈ (analysisPhase opts env llm cs db).2.1,
          ∃ c ∈ cs, strIncludes s ("Analysis failed for call " ++ c.id) = true
  | [], _ => by simp [analysisPhase]
  | c :: rest, db => by
    obtain ⟨ih1, ih2⟩ := analysisPhase_spec opts env llm rest
      (analyzeCall ⟨c.id, none, none, some opts.phoneNumberId⟩ env (llm c.id) db).2.1
    simp only [analysisPhase]
    by_cases hs : (analyzeCall ⟨c.id, none, none, some opts.phoneNumberId⟩ env
        (llm c.id) db).1.success = true
    · rw [if_pos hs]
      refine ⟨by simp only [List.length_cons]; omega, ?_⟩
      · intro s hsmem
        obtain ⟨c', hc', hmem⟩ := ih2 s hsmem
        exact ⟨c', by simp [hc'], hmem⟩
    · rw [if_neg hs]
      constructor
      · simp only [List.length_cons]
        omega
      · intro s hsmem
        rcases List.mem_cons.mp hsmem with h | h
        · refine ⟨c, by simp, ?_⟩
          rw [h]
          have : "Analysis failed for call " ++ c.id ++ ": " ++
              tmpl (analyzeCall ⟨c.id, none, none, some opts.phoneNumberId⟩ env
                (llm c.id) db).1.error =
              ("Analysis failed for call " ++ c.id) ++ (": " ++
                tmpl (analyzeCall ⟨c.id, none, none, some opts.phoneNumberId⟩ env
                  (llm c.id) db).1.error) := by
            rw [String.append_assoc]
          rw [this]
          exact strIncludes_self_append _ _
        · obtain ⟨c', hc', hmem⟩ := ih2 s h
          exact ⟨c', by simp [hc'], hmem⟩

/-- C7 (amended): `syncCalls` is total and per-item failures never abort
the run.  Its `success` flag equals the page-fetch phase's outcome, so a
transcript failure never flips it; `callsSynced` counts every completed
call; `transcriptsSynced` counts exactly the calls whose own transcript
response succeeded with a non-empty dialogue, independent of other
calls' failures; and with auto-analysis on, the error list is the fetch
errors (plus the no-calls notice) followed only by per-call analysis
failures — triggered analyses and those failures together cover every
qualifying call, and no transcript-fetch error string is recorded. -/
theorem C7_sync_resilience (opts : SyncOptions)
    (pages : List (Except String (List OpenPhoneCall × Option String)))
    (tResp : String → Except String (Option OPTranscript))
    (llm : String → Except String LLMAnalysis) (env : Env) (db : DB) :
    (syncCalls opts pages tResp llm env db).1.success = (fetchPhase opts pages).2.2
    ∧ (syncCalls opts pages tResp llm env db).1.callsSynced =
        ((fetchPhase opts pages).1.filter (·.status == "completed")).length
    ∧ (syncCalls opts pages tResp llm env db).1.transcriptsSynced =
        ((fetchPhase opts pages).1.filter (·.status == "completed")).countP
          (fun c => transcriptFound (tResp c.id))
    ∧ (opts.autoAnalyze ≠ some false →
        ∃ aErrs,
          (syncCalls opts pages tResp llm env db).1.errors =
            ((fetchPhase opts pages).2.1 ++
              (if (fetchPhase opts pages).1.length = 0 ∧ (fetchPhase opts pages).2.1 = []
               then [noCallsMsg opts] else [])) ++ aErrs
          ∧ (syncCalls opts pages tResp llm env db).1.analysesTriggered + aErrs.length =
              (filterCallsForAnalysis
                ((fetchPhase opts pages).1.filter (·.status == "completed"))
                opts.phoneNumberId env).length
          ∧ ∀ s ∈ aErrs,
              ∃ c ∈ filterCallsForAnalysis
                  ((fetchPhase opts pages).1.filter (·.status == "completed"))
                  opts.phoneNumberId env,
                strIncludes s ("Analysis failed for call " ++ c.id) = true) := by
  have hauto : ∀ (h : opts.autoAnalyze ≠ some false),
      (!(opts.autoAnalyze == some false)) = true := by
    intro h
    simp [h]
  refine ⟨rfl, ?_, ?_, ?_⟩
  · exact upsertPhase_count _ _
  · exact transcriptPhase_count tResp _ _
  · intro h
    have hcond := hauto h
    obtain ⟨h1, h2⟩ := analysisPhase_spec opts env llm
      (filterCallsForAnalysis
        ((fetchPhase opts pages).1.filter (·.status == "completed"))
        opts.phoneNumberId env)
      (transcriptPhase tResp
        ((fetchPhase opts pages).1.filter (·.status == "completed"))
        (upsertPhase ((fetchPhase opts pages).1.filter (·.status == "completed")) db).2).2
    refine ⟨(analysisPhase opts env llm
        (filterCallsForAnalysis
          ((fetchPhase opts pages).1.filter (·.status == "completed"))
          opts.phoneNumberId env)
        (transcriptPhase tResp
          ((fetchPhase opts pages).1.filter (·.status == "completed"))
          (upsertPhase ((fetchPhase opts pages).1.filter (·.status == "completed")) db).2).2).2.1,
      ?_, ?_, h2⟩
    · simp only [syncCalls, hcond, if_true]
    · simp only [syncCalls, hcond, if_true]
      exact h1


/-- C7 counterexample: a batch of two completed main-line calls where the
transcript fetch for `"c1"` throws `"boom"`.  The run still succeeds,
`"c2"` is still transcribed and analyzed — but the error list holds only
the (consequent) analysis failure for `"c1"`; the transcript-fetch error
itself (`"boom"`) never appears in the returned error list, contrary to
the claim. -/
theorem C7_transcript_error_not_recorded_counterexample :
    ((fun out =>
      out.1.success = true ∧ out.1.callsSynced = 2
      ∧ out.1.transcriptsSynced = 1 ∧ out.1.analysesTriggered = 1
      ∧ out.1.errors = ["Analysis failed for call c1: Transcript not found for this call"]
      ∧ ∀ s ∈ out.1.errors, strIncludes s "boom" = false)
     (syncCalls ⟨"PNmain", 7, none⟩
        [.ok ([⟨"c1", "PNmain", none, "incoming", "completed", [], some 45,
                0, none, none, none, none⟩,
               ⟨"c2", "PNmain", none, "incoming", "completed", [], some 45,
                0, none, none, none, none⟩], none)]
        (fun id => if id = "c1" then .error "boom"
          else .ok (some ⟨"c2", some 45, some "completed",
            some [⟨some "Hello there, how can I help you today", some "+1555",
              none, some 0, some 5⟩]⟩))
        (fun _ => .ok ⟨.num 80, some "ok", some "Positive",
          some [("greeting", ⟨some true, some "good"⟩)], none, none, none, none⟩)
        ⟨some "PNmain", some "PNout"⟩ ⟨[], [], []⟩)) := by
  decide

/-- C7 witness: the amended theorem applied to the same concrete run. -/
theorem C7_sync_resilience_witness :
    ((⟨"PNmain", 7, none⟩ : SyncOptions).autoAnalyze ≠ some false)
    ∧ (∃ aErrs,
        (syncCalls ⟨"PNmain", 7, none⟩
          [.ok ([⟨"c1", "PNmain", none, "incoming", "completed", [], some 45,
                  0, none, none, none, none⟩], none)]
          (fun _ => .error "boom")
          (fun _ => .ok ⟨.num 80, some "ok", some "Positive",
            some [("greeting", ⟨some true, some "good"⟩)], none, none, none, none⟩)
          ⟨some "PNmain", some "PNout"⟩ ⟨[], [], []⟩).1.errors =
            ((fetchPhase ⟨"PNmain", 7, none⟩
              [.ok ([⟨"c1", "PNmain", none, "incoming", "completed", [], some 45,
                      0, none, none, none, none⟩], none)]).2.1 ++
              (if (fetchPhase ⟨"PNmain", 7, none⟩
                    [.ok ([⟨"c1", "PNmain", none, "incoming", "completed", [],
                            some 45, 0, none, none, none, none⟩], none)]).1.length = 0
                  ∧ (fetchPhase ⟨"PNmain", 7, none⟩
                    [.ok ([⟨"c1", "PNmain", none, "incoming", "completed", [],
                            some 45, 0, none, none, none, none⟩], none)]).2.1 = []
               then [noCallsMsg ⟨"PNmain", 7, none⟩] else [])) ++ aErrs
        ∧ (syncCalls ⟨"PNmain", 7, none⟩
            [.ok ([⟨"c1", "PNmain", none, "incoming", "completed", [], some 45,
                    0, none, none, none, none⟩], none)]
            (fun _ => .error "boom")
            (fun _ => .ok ⟨.num 80, some "ok", some "Positive",
              some [("greeting", ⟨some true, some "good"⟩)], none, none, none, none⟩)
            ⟨some "PNmain", some "PNout"⟩ ⟨[], [], []⟩).1.analysesTriggered + aErrs.length =
            (filterCallsForAnalysis
              ((fetchPhase ⟨"PNmain", 7, none⟩
                [.ok ([⟨"c1", "PNmain", none, "incoming", "completed", [], some 45,
                        0, none, none, none, none⟩], none)]).1.filter
                  (·.status == "completed"))
              "PNmain" ⟨some "PNmain", some "PNout"⟩).length
        ∧ ∀ s ∈ aErrs,
            ∃ c ∈ filterCallsForAnalysis
                ((fetchPhase ⟨"PNmain", 7, none⟩
                  [.ok ([⟨"c1", "PNmain", none, "incoming", "completed", [], some 45,
                          0, none, none, none, none⟩], none)]).1.filter
                    (·.status == "completed"))
                "PNmain" ⟨some "PNmain", some "PNout"⟩,
              strIncludes s ("Analysis failed for call " ++ c.id) = true) :=
  ⟨by decide,
    (C7_sync_resilience ⟨"PNmain", 7, none⟩
      [.ok ([⟨"c1", "PNmain", none, "incoming", "completed", [], some 45,
              0, none, none, none, none⟩], none)]
      (fun _ => .error "boom")
      (fun _ => .ok ⟨.num 80, some "ok", some "Positive",
        some [("greeting", ⟨some true, some "good"⟩)], none, none, none, none⟩)
      ⟨some "PNmain", some "PNout"⟩ ⟨[], [], []⟩).2.2.2 (by decide)⟩


/-! ## C8 — the webhook always acknowledges with HTTP 200 -/

/-- C8: the webhook handler answers every POST with HTTP 200 and
`received: true` — recognized events, unrecognized events (acknowledged
with `processed: false`), and the caught-exception path (missing body or
missing `data` for a recognized type) alike; no input produces a
non-200 status. -/
theorem C8_webhook_always_200 (req : WebhookReq) (env : Env) (now : Nat)
    (db : DB) :
    (openphoneWebhookHandler req env now db).1.status = 200
    ∧ (openphoneWebhookHandler req env now db).1.received = true
    ∧ (∀ body, req.body = some body →
        body.type ≠ some "call.completed" →
        body.type ≠ some "call.transcript.completed" →
        (openphoneWebhookHandler req env now db).1.processed = some false) := by
  refine ⟨?_, ?_, ?_⟩
  · unfold openphoneWebhookHandler
    repeat' (first | rfl | split | dsimp only)
  · unfold openphoneWebhookHandler
    repeat' (first | rfl | split | dsimp only)
  · intro body hb h1 h2
    have e1 : (body.type == some "call.completed") = false := by
      simp [h1]
    have e2 : (body.type == some "call.transcript.completed") = false := by
      simp [h2]
    unfold openphoneWebhookHandler
    rw [hb]
    dsimp only
    rw [e1, e2]
    rfl

/-- C8 witness: an unrecognized event type is acknowledged with 200 and
`processed: false`. -/
theorem C8_webhook_always_200_witness :
    ((⟨some ⟨some "message.received", none⟩⟩ : WebhookReq).body =
      some ⟨some "message.received", none⟩)
    ∧ ((some "message.received" : Option String) ≠ some "call.completed")
    ∧ ((some "message.received" : Option String) ≠ some "call.transcript.completed")
    ∧ (openphoneWebhookHandler ⟨some ⟨some "message.received", none⟩⟩
        ⟨some "PNmain", some "PNout"⟩ 0 ⟨[], [], []⟩).1.processed = some false :=
  ⟨rfl, by decide, by decide,
    (C8_webhook_always_200 ⟨some ⟨some "message.received", none⟩⟩
      ⟨some "PNmain", some "PNout"⟩ 0 ⟨[], [], []⟩).2.2
      ⟨some "message.received", none⟩ rfl (by decide) (by decide)⟩

/-! ## C10 — batch accounting -/

/-- Every branch of `analyzeCall` echoes the requested call id. -/
lemma analyzeCall_callId (opts : AnalyzeCallOptions) (env : Env)
    (llm : Except String LLMAnalysis) (db : DB) :
    (analyzeCall opts env llm db).1.callId = opts.callId := by
  unfold analyzeCall
  repeat' (first | rfl | split | dsimp only)

/-- Complements of a Bool predicate count up to the length. -/
lemma countP_add_countP_not {α : Type} (p : α → Bool) (l : List α) :
    l.countP p + l.countP (fun a => !p a) = l.length := by
  induction l with
  | nil => simp
  | cons a t ih =>
    by_cases h : p a = true
    · simp [List.countP_cons, h, ← ih]
      omega
    · have h' : p a = false := by simpa using h
      simp [List.countP_cons, h', ← ih]
      omega

/-- The loop of `batchAnalyzeCalls` produces one result per id in order
and counts successes/failures exactly. -/
lemma batchLoop_spec (env : Env) (llm : String → Except String LLMAnalysis) :
    ∀ (ids : List String) (db : DB),
      ((batchLoop env llm ids db).1.map (·.callId) = ids)
      ∧ (batchLoop env llm ids db).2.1 =
          (batchLoop env llm ids db).1.countP (·.success)
      ∧ (batchLoop env llm ids db).2.2.1 =
          (batchLoop env llm ids db).1.countP (fun r => !r.success) := by
  intro ids
  induction ids with
  | nil => intro db; simp [batchLoop]
  | cons id rest ih =>
    intro db
    obtain ⟨h1, h2, h3⟩ := ih (analyzeCall ⟨id, none, none, none⟩ env (llm id) db).2.1
    simp only [batchLoop]
    refine ⟨by simp [h1, analyzeCall_callId], ?_, ?_⟩
    · by_cases hs : (analyzeCall ⟨id, none, none, none⟩ env (llm id) db).1.success = true
      · simp [List.countP_cons, hs, h2]
      · have hs' : (analyzeCall ⟨id, none, none, none⟩ env (llm id) db).1.success = false := by
          simpa using hs
        simp [List.countP_cons, hs', h2]
    · by_cases hs : (analyzeCall ⟨id, none, none, none⟩ env (llm id) db).1.success = true
      · simp [List.countP_cons, hs, h3]
      · have hs' : (analyzeCall ⟨id, none, none, none⟩ env (llm id) db).1.success = false := by
          simpa using hs
        simp [List.countP_cons, hs', h3]

/-- C10: `batchAnalyzeCalls` returns `total` equal to the input length,
exactly one result per input id in input order, and `successful`/`failed`
counting each input exactly once by its result's success flag (so they
sum to `total`). -/
theorem C10_batchAnalyzeCalls_accounting (ids : List String) (env : Env)
    (llm : String → Except String LLMAnalysis) (db : DB) :
    ((batchAnalyzeCalls ids env llm db).1).total = ids.length
    ∧ ((batchAnalyzeCalls ids env llm db).1).results.length = ids.length
    ∧ ((batchAnalyzeCalls ids env llm db).1).results.map (·.callId) = ids
    ∧ ((batchAnalyzeCalls ids env llm db).1).successful +
        ((batchAnalyzeCalls ids env llm db).1).failed =
        ((batchAnalyzeCalls ids env llm db).1).total
    ∧ ((batchAnalyzeCalls ids env llm db).1).successful =
        ((batchAnalyzeCalls ids env llm db).1).results.countP (·.success)
    ∧ ((batchAnalyzeCalls ids env llm db).1).failed =
        ((batchAnalyzeCalls ids env llm db).1).results.countP (fun r => !r.success) := by
  obtain ⟨h1, h2, h3⟩ := batchLoop_spec env llm ids db
  have hlen : (batchLoop env llm ids db).1.length = ids.length := by
    conv_rhs => rw [← h1]
    rw [List.length_map]
  refine ⟨rfl, hlen, h1, ?_, h2, h3⟩
  show (batchLoop env llm ids db).2.1 + (batchLoop env llm ids db).2.2.1 = ids.length
  rw [h2, h3, countP_add_countP_not, hlen]

end QADash
